import Mathlib

/-!
Shallow embedding of the domain/use-case layer of the stellara-frontend
repository: the `Message`/`Conversation` entities, and the
`SendChatMessage`, `LoadConversations`, `RequestAstrologyReading`,
`LoginUser` and `RegisterUser` use cases, together with theorems settling
the claims about them.

Modelling conventions (JavaScript/TypeScript semantics → Lean):
* a JS `Date` is modelled by its instant, an `Int` of milliseconds since
  the Unix epoch (the JS "Invalid Date" value is outside the model);
* `String.prototype.trim` is modelled by `jsTrim` (drop whitespace from
  both ends, using `Char.isWhitespace` for the JS `\s` class);
* `string.length` is modelled by `String.length` (code points instead of
  UTF-16 units; no claim depends on supplementary-plane characters);
* optional fields and JS `undefined` are modelled with `Option`;
  the JS truthiness test on an optional string (`if (x)`) is `none` or
  `some ""` being falsy;
* a throwing operation is modelled with `Except String` (entity
  constructors) or `Except JsThrown` (repository calls, where the thrown
  value may be a JS `Error` with a message, or any non-`Error` value);
* asynchronous repository methods are modelled as oracle functions inside
  a repository record; a use-case `execute` additionally returns the list
  of repository calls it performed, in order, so that "no repository call
  is made" and "the request sent to the repository" are expressible.
-/

/-- JS `String.prototype.trim`: drop whitespace from both ends. -/
def jsTrim (s : String) : String :=
  ⟨((s.data.dropWhile Char.isWhitespace).reverse.dropWhile Char.isWhitespace).reverse⟩

/-- JS `String.prototype.includes`: substring containment. -/
def jsIncludes (s pat : String) : Bool :=
  decide (pat.data <:+: s.data)

/-- A value thrown by JS code: either an `Error` carrying a message, or a
non-`Error` throwable (string, number, ...). -/
inductive JsThrown where
  | jsError (msg : String)
  | nonError
deriving DecidableEq

deriving instance DecidableEq for Except

/-! ## Message entity (src/unnamed/part_002) -/

/-- `MessageProps` from the source.  `role` is a plain string here because
`validateMessage` checks it at run time; `timestamp` is optional because
the constructor checks its presence. -/
structure MessageProps where
  id : String
  role : String
  content : String
  timestamp : Option Int
  conversationId : Option String
  spiritualThemes : Option (List String)
  suggestedActions : Option (List String)
  relatedTopics : Option (List String)
deriving DecidableEq

/-- `Message.validateMessage`: returns the error message thrown on the
first violated invariant, or `none` when construction succeeds. -/
def validateMessage (p : MessageProps) : Option String :=
  if jsTrim p.id = "" then some "Message ID is required"
  else if jsTrim p.content = "" then some "Message content cannot be empty"
  else if p.content.length > 2000 then
    some "Message too long. Please keep messages under 2000 characters."
  else if ¬(p.role = "user" ∨ p.role = "assistant") then
    some "Invalid message role. Must be \x22user\x22 or \x22assistant\x22"
  else if p.timestamp = none then some "Message timestamp is required"
  else none

/-- The `Message` entity: a validated, immutable bundle of props. -/
structure Message where
  props : MessageProps
deriving DecidableEq

/-- `new Message(props)`: validate, then store a copy of the props. -/
def mkMessage (p : MessageProps) : Except String Message :=
  match validateMessage p with
  | some e => .error e
  | none => .ok ⟨p⟩

/-- A message satisfying the constructor's invariants (every `Message`
obtained from `mkMessage` satisfies this). -/
def ValidMessage (m : Message) : Prop := validateMessage m.props = none

def Message.id (m : Message) : String := m.props.id

def Message.role (m : Message) : String := m.props.role

def Message.content (m : Message) : String := m.props.content

def Message.timestamp (m : Message) : Option Int := m.props.timestamp

def Message.conversationId (m : Message) : Option String := m.props.conversationId

/-- Getter `spiritualThemes`: `this.props.spiritualThemes || []`. -/
def Message.spiritualThemes (m : Message) : List String :=
  m.props.spiritualThemes.getD []

/-- Getter `suggestedActions`: `this.props.suggestedActions || []`. -/
def Message.suggestedActions (m : Message) : List String :=
  m.props.suggestedActions.getD []

/-- Getter `relatedTopics`: `this.props.relatedTopics || []`. -/
def Message.relatedTopics (m : Message) : List String :=
  m.props.relatedTopics.getD []

/-- `Message.createUserMessage(content, conversationId?)`.  The generated
id is `user-${Date.now()}-${random suffix}`; the caller supplies the
environment-dependent tail `idTok` and the current instant `ts`. -/
def createUserMessage (idTok : String) (ts : Int) (content : String)
    (conversationId : Option String) : Except String Message :=
  mkMessage
    { id := "user-" ++ idTok
      role := "user"
      content := jsTrim content
      timestamp := some ts
      conversationId := conversationId
      spiritualThemes := none
      suggestedActions := none
      relatedTopics := none }

/-- `Message.createAssistantMessage(content, conversationId?, themes?,
actions?, topics?)`, with the environment-dependent id tail and instant
supplied by the caller. -/
def createAssistantMessage (idTok : String) (ts : Int) (content : String)
    (conversationId : Option String) (spiritualThemes : Option (List String))
    (suggestedActions : Option (List String)) (relatedTopics : Option (List String)) :
    Except String Message :=
  mkMessage
    { id := "assistant-" ++ idTok
      role := "assistant"
      content := jsTrim content
      timestamp := some ts
      conversationId := conversationId
      spiritualThemes := spiritualThemes
      suggestedActions := suggestedActions
      relatedTopics := relatedTopics }

/-! ## Conversation entity (src/unnamed/part_003) -/

/-- `ConversationProps` from the source.  The dates are optional because
the constructor checks their presence (`if (!props.createdAt)`). -/
structure ConversationProps where
  id : String
  messages : List Message
  createdAt : Option Int
  updatedAt : Option Int
  summary : Option String
  userId : Option String
deriving DecidableEq

/-- `Conversation.validateConversation`.  The `Array.isArray(messages)`
check always passes in this typed model, where `messages` is a list. -/
def validateConversation (p : ConversationProps) : Option String :=
  if jsTrim p.id = "" then some "Conversation ID is required"
  else
    match p.createdAt with
    | none => some "Conversation creation date is required"
    | some cAt =>
      match p.updatedAt with
      | none => some "Conversation update date is required"
      | some uAt =>
        if uAt < cAt then some "Update date cannot be before creation date"
        else none

/-- The `Conversation` entity.  The constructor's `[...props.messages]`
copy is the identity on immutable lists; the aliasing content of that copy
is studied separately in the heap model below. -/
structure Conversation where
  props : ConversationProps
deriving DecidableEq

/-- `new Conversation(props)`. -/
def mkConversation (p : ConversationProps) : Except String Conversation :=
  match validateConversation p with
  | some e => .error e
  | none => .ok ⟨p⟩

/-- A conversation satisfying the constructor's invariants, whose messages
all satisfy the `Message` invariants (any conversation assembled from
constructed `Message` values satisfies this). -/
def ValidConversation (c : Conversation) : Prop :=
  validateConversation c.props = none ∧ ∀ m ∈ c.props.messages, ValidMessage m

def Conversation.id (c : Conversation) : String := c.props.id

def Conversation.messages (c : Conversation) : List Message := c.props.messages

def Conversation.getMessageCount (c : Conversation) : Nat := c.props.messages.length

/-- The guard of `addMessage`:
`message.conversationId && message.conversationId !== this.id`
(a `some ""` conversation id is falsy, hence never a mismatch). -/
def cidMismatch (c : Conversation) (m : Message) : Bool :=
  match m.props.conversationId with
  | some cid => cid != "" && cid != c.props.id
  | none => false

/-- `Conversation.addMessage(message)`: reject a mismatched conversation
id, then rebuild through the constructor with the message appended and
`updatedAt` refreshed to the current instant `now`. -/
def Conversation.addMessage (c : Conversation) (m : Message) (now : Int) :
    Except String Conversation :=
  if cidMismatch c m then .error "Message conversation ID does not match"
  else
    mkConversation
      { c.props with
        messages := c.props.messages ++ [m]
        updatedAt := some now }

/-- `Conversation.createNew(userId?)`, with the environment-dependent id
tail `idTok` and the current instant `now` supplied by the caller. -/
def createNew (idTok : String) (now : Int) (userId : Option String) :
    Except String Conversation :=
  mkConversation
    { id := "conv-" ++ idTok
      messages := []
      createdAt := some now
      updatedAt := some now
      summary := none
      userId := userId }

/-- `Conversation.createWithFirstMessage(message, userId?)`: create an
empty conversation at instant `now`, then append at instant `addNow`. -/
def createWithFirstMessage (idTok : String) (now addNow : Int) (m : Message)
    (userId : Option String) : Except String Conversation :=
  match createNew idTok now userId with
  | .error e => .error e
  | .ok c => c.addMessage m addNow

/-! ## Serialization (toJSON / fromJSON)

`Message.toJSON` returns `{...props}`: the timestamp stays an in-memory
`Date`.  When a conversation is persisted, `JSON.stringify` turns every
`Date` into its ISO-8601 string (`Date.prototype.toJSON` =
`toISOString`), and `fromJSON` runs the string through `new Date(...)`.
Both `toISOString` and ISO-string parsing are ECMAScript library
functions, not repository code; the pair is modelled abstractly as a
bijection: `asIsoString ms` stands for the ISO-8601 string denoting the
instant `ms`, and `newDateOfJson` maps it back to `ms`. -/

/-- A JSON value in a date position: either an in-memory `Date`, or the
ISO-8601 string `toISOString` produces for that instant. -/
inductive JsonDateVal where
  | asDate (ms : Int)
  | asIsoString (ms : Int)
deriving DecidableEq

/-- `new Date(v)` on a `Date` copies the instant; on an ISO-8601 string it
parses back the instant the string denotes. -/
def newDateOfJson : JsonDateVal → Int
  | .asDate ms => ms
  | .asIsoString ms => ms

/-- `JSON.stringify` serializes a `Date` to its ISO-8601 string. -/
def stringifyDateVal : JsonDateVal → JsonDateVal
  | .asDate ms => .asIsoString ms
  | .asIsoString ms => .asIsoString ms

/-- The JSON shape produced by `Message.toJSON` (the spread of the props,
with the timestamp in date position). -/
structure MessageJson where
  id : String
  role : String
  content : String
  timestamp : Option JsonDateVal
  conversationId : Option String
  spiritualThemes : Option (List String)
  suggestedActions : Option (List String)
  relatedTopics : Option (List String)
deriving DecidableEq

/-- `Message.toJSON()`: `{ ...this.props }`. -/
def Message.toJSON (m : Message) : MessageJson :=
  { id := m.props.id
    role := m.props.role
    content := m.props.content
    timestamp := m.props.timestamp.map .asDate
    conversationId := m.props.conversationId
    spiritualThemes := m.props.spiritualThemes
    suggestedActions := m.props.suggestedActions
    relatedTopics := m.props.relatedTopics }

/-- `Message.fromJSON(json)`:
`new Message({ ...json, timestamp: new Date(json.timestamp) })`. -/
def Message.fromJSON (j : MessageJson) : Except String Message :=
  mkMessage
    { id := j.id
      role := j.role
      content := j.content
      timestamp := j.timestamp.map newDateOfJson
      conversationId := j.conversationId
      spiritualThemes := j.spiritualThemes
      suggestedActions := j.suggestedActions
      relatedTopics := j.relatedTopics }

/-- What `JSON.stringify` makes of a `MessageJson`: dates become ISO
strings, every other field is unchanged. -/
def MessageJson.stringifyDates (j : MessageJson) : MessageJson :=
  { j with timestamp := j.timestamp.map stringifyDateVal }

/-- The JSON shape produced by `Conversation.toJSON`. -/
structure ConversationJson where
  id : String
  createdAt : Option JsonDateVal
  updatedAt : Option JsonDateVal
  summary : Option String
  userId : Option String
  messages : List MessageJson
deriving DecidableEq

/-- `Conversation.toJSON()`. -/
def Conversation.toJSON (c : Conversation) : ConversationJson :=
  { id := c.props.id
    createdAt := c.props.createdAt.map .asDate
    updatedAt := c.props.updatedAt.map .asDate
    summary := c.props.summary
    userId := c.props.userId
    messages := c.props.messages.map Message.toJSON }

/-- `Conversation.fromJSON(json)`: map `Message.fromJSON` over the nested
messages (any throw propagates), then rebuild through the constructor with
the dates run through `new Date(...)`. -/
def Conversation.fromJSON (j : ConversationJson) : Except String Conversation := do
  let msgs ← j.messages.mapM Message.fromJSON
  mkConversation
    { id := j.id
      messages := msgs
      createdAt := j.createdAt.map newDateOfJson
      updatedAt := j.updatedAt.map newDateOfJson
      summary := j.summary
      userId := j.userId }

/-- What `JSON.stringify` makes of a `ConversationJson`. -/
def ConversationJson.stringifyDates (j : ConversationJson) : ConversationJson :=
  { j with
    createdAt := j.createdAt.map stringifyDateVal
    updatedAt := j.updatedAt.map stringifyDateVal
    messages := j.messages.map MessageJson.stringifyDates }

/-! ## Reference/heap model of the sequence getters

The defensive-copy claim is about aliasing of mutable JS arrays, so it is
settled in a small heap model: a heap is a store of arrays, an array value
is a reference (index) into it.  Only the array-typed fields and the
getters that hand arrays out are modelled; mutating an array through a
reference is `hWrite`.  In this model:

* `Message`'s getters are `return this.props.spiritualThemes || [];` —
  the stored reference itself when the field is set, a freshly allocated
  empty array when it is not;
* `Conversation`'s getter is `return [...this.props.messages];` — a
  freshly allocated copy of the stored array. -/

/-- A store of JS arrays with element type `α`. -/
abbrev Heap (α : Type) : Type := List (List α)

/-- Allocate a new array; returns its reference and the new heap. -/
def hAlloc (h : Heap α) (v : List α) : Nat × Heap α :=
  (List.length h, h ++ [v])

/-- Read the array behind a reference. -/
def hRead (h : Heap α) (r : Nat) : List α :=
  List.getD h r []

/-- Mutate the array behind a reference (e.g. `arr.push(...)`). -/
def hWrite (h : Heap α) (r : Nat) (v : List α) : Heap α :=
  List.set h r v

/-- The array-typed fields of a `Message` in the heap model: each optional
string-array field holds a reference into a `Heap String` (the constructor
`this.props = { ...props }` copies the props record shallowly, so these
are the caller's references). -/
structure MessageH where
  spiritualThemes : Option Nat
  suggestedActions : Option Nat
  relatedTopics : Option Nat
deriving DecidableEq

/-- Shared shape of the `Message` sequence getters:
`this.props.<field> || []`. -/
def jsFieldOrEmpty (ref : Option Nat) (h : Heap α) : Nat × Heap α :=
  match ref with
  | some r => (r, h)
  | none => hAlloc h []

/-- Getter `spiritualThemes` in the heap model. -/
def MessageH.getSpiritualThemes (m : MessageH) (h : Heap String) : Nat × Heap String :=
  jsFieldOrEmpty m.spiritualThemes h

/-- Getter `suggestedActions` in the heap model. -/
def MessageH.getSuggestedActions (m : MessageH) (h : Heap String) : Nat × Heap String :=
  jsFieldOrEmpty m.suggestedActions h

/-- Getter `relatedTopics` in the heap model. -/
def MessageH.getRelatedTopics (m : MessageH) (h : Heap String) : Nat × Heap String :=
  jsFieldOrEmpty m.relatedTopics h

/-- The array-typed field of a `Conversation` in the heap model: the
`messages` array lives in a `Heap Nat` whose elements stand for message
references. -/
structure ConversationH where
  messagesRef : Nat
deriving DecidableEq

/-- Getter `messages` in the heap model:
`return [...this.props.messages];`. -/
def ConversationH.getMessages (c : ConversationH) (h : Heap Nat) : Nat × Heap Nat :=
  hAlloc h (hRead h c.messagesRef)

/-! ## Repository boundary (src/src/modules/ai/domain/repositories/IAiRepository.ts) -/

/-- The `userContext` shape of a `SendChatMessageRequest`.
`experienceLevel` is a plain string here because `validateRequest` checks
its value at run time. -/
structure UserCtx where
  spiritualInterests : Option (List String)
  experienceLevel : Option String
  preferredPractices : Option (List String)
deriving DecidableEq

/-- `ChatRequest.context` from `IAiRepository`. -/
structure ChatContext where
  userProfile : Option UserCtx
  location : Option String
  timeOfDay : Option String
deriving DecidableEq

/-- `ChatRequest` from `IAiRepository`. -/
structure ChatRequest where
  message : String
  conversationId : Option String
  context : Option ChatContext
deriving DecidableEq

/-- `ChatResponse` from `IAiRepository`. -/
structure ChatResponse where
  message : String
  conversationId : String
  spiritualThemes : List String
  suggestedActions : Option (List String)
  relatedTopics : Option (List String)
  timestamp : Int
deriving DecidableEq

/-- `AstrologyRequest.birthInfo` / the `birthInfo` of a
`RequestAstrologyReadingRequest`. -/
structure BirthInfo where
  dateOfBirth : String
  timeOfBirth : String
  placeOfBirth : String
  timezone : Option String
deriving DecidableEq

/-- The partner variant of the birth info (no timezone field). -/
structure PartnerBirthInfo where
  dateOfBirth : String
  timeOfBirth : String
  placeOfBirth : String
deriving DecidableEq

/-- `AstrologyRequest` from `IAiRepository`. -/
structure AstrologyRequest where
  birthInfo : BirthInfo
  readingType : String
  partnerBirthInfo : Option PartnerBirthInfo
deriving DecidableEq

/-- `AstrologyResponse` payload, carried through untouched by the use
case; its inner fields are never inspected by the claims, so it is kept
opaque. -/
structure AstrologyResponse where
  payload : String
deriving DecidableEq

/-- The `IAiRepository` capabilities the modelled use cases consume, as a
deterministic oracle: each method either returns a value or throws. -/
structure AiRepo where
  sendChatMessage : ChatRequest → Except JsThrown ChatResponse
  saveConversation : Conversation → Except JsThrown Unit
  loadConversations : Option ℚ → Except JsThrown (List Conversation)
  requestAstrologyReading : AstrologyRequest → Except JsThrown AstrologyResponse

/-- One outbound repository call, as recorded in a use case's trace. -/
inductive RepoCall where
  | sendChat (r : ChatRequest)
  | saveConv (c : Conversation)
  | loadConvs (limit : Option ℚ)
  | astroRead (r : AstrologyRequest)
deriving DecidableEq

/-! ## SendChatMessage use case
(src/src/modules/ai/domain/use-cases/SendChatMessage.ts) -/

/-- `SendChatMessageRequest`. -/
structure SendChatMessageRequest where
  message : String
  conversation : Option Conversation
  userContext : Option UserCtx
  location : Option String
  timeOfDay : Option String
deriving DecidableEq

/-- `SendChatMessageResult`. -/
structure SendChatMessageResult where
  success : Bool
  updatedConversation : Option Conversation
  assistantMessage : Option Message
  error : Option String
deriving DecidableEq

/-- The failure result `{ success: false, error }`. -/
def scmFail (e : String) : SendChatMessageResult :=
  ⟨false, none, none, some e⟩

/-- The guard of the experience-level validation:
`request.userContext?.experienceLevel && !['beginner', 'intermediate',
'advanced'].includes(...)` (a `some ""` level is falsy, so it skips the
check). -/
def badExperienceLevel (r : SendChatMessageRequest) : Bool :=
  match r.userContext with
  | none => false
  | some uc =>
    match uc.experienceLevel with
    | none => false
    | some lvl =>
      lvl != "" && !(["beginner", "intermediate", "advanced"].contains lvl)

/-- `SendChatMessage.validateRequest`. -/
def SendChatMessage.validateRequest (r : SendChatMessageRequest) : Option String :=
  if jsTrim r.message = "" then some "Message cannot be empty"
  else if r.message.length > 2000 then
    some "Message too long. Please keep messages under 2000 characters."
  else if badExperienceLevel r then
    some "Invalid experience level. Must be beginner, intermediate, or advanced."
  else none

/-- `SendChatMessage.handleError`: substring classification of a thrown
error; a non-`Error` throwable gets the generic fallback. -/
def SendChatMessage.handleError : JsThrown → String
  | .jsError msg =>
    if jsIncludes msg "Authentication required" then
      "Authentication required. Please log in."
    else if jsIncludes msg "Message too long" then
      "Message too long. Please keep messages under 2000 characters."
    else if jsIncludes msg "temporarily unavailable" then
      "AI service is temporarily unavailable. Please try again later."
    else if jsIncludes msg "I can only provide" then msg
    else if jsIncludes msg "Invalid request data" then
      "Invalid request. Please check your input and try again."
    else msg
  | .nonError => "An unexpected error occurred. Please try again."

/-- The environment-dependent values (`Date.now()` / `new Date()` reads
and random id suffixes) one run of `SendChatMessage.execute` consumes, one
field per read site in source order. -/
structure ScmEnv where
  userIdTok : String
  userTs : Int
  convIdTok : String
  convTs : Int
  userAddTs : Int
  asstIdTok : String
  asstTs : Int
  asstAddTs : Int
deriving DecidableEq

/-- `SendChatMessage.execute`: validation, user-message creation,
conversation update, repository chat call, assistant-message creation,
conversation update, persistence; any throw is caught and mapped by
`handleError`.  Returns the result together with the trace of repository
calls made. -/
def SendChatMessage.execute (repo : AiRepo) (env : ScmEnv)
    (request : SendChatMessageRequest) : SendChatMessageResult × List RepoCall :=
  match SendChatMessage.validateRequest request with
  | some e => (scmFail e, [])
  | none =>
    match createUserMessage env.userIdTok env.userTs request.message
        (request.conversation.map Conversation.id) with
    | .error e => (scmFail (SendChatMessage.handleError (.jsError e)), [])
    | .ok userMessage =>
      match
        (match request.conversation with
         | some c => c.addMessage userMessage env.userAddTs
         | none =>
           createWithFirstMessage env.convIdTok env.convTs env.userAddTs
             userMessage none) with
      | .error e => (scmFail (SendChatMessage.handleError (.jsError e)), [])
      | .ok currentConversation =>
        let chatRequest : ChatRequest :=
          { message := request.message
            conversationId := some currentConversation.id
            context := some
              { userProfile := request.userContext
                location := request.location
                timeOfDay := request.timeOfDay } }
        match repo.sendChatMessage chatRequest with
        | .error e =>
          (scmFail (SendChatMessage.handleError e), [.sendChat chatRequest])
        | .ok chatResponse =>
          match createAssistantMessage env.asstIdTok env.asstTs
              chatResponse.message (some chatResponse.conversationId)
              (some chatResponse.spiritualThemes) chatResponse.suggestedActions
              chatResponse.relatedTopics with
          | .error e =>
            (scmFail (SendChatMessage.handleError (.jsError e)), [.sendChat chatRequest])
          | .ok assistantMessage =>
            match currentConversation.addMessage assistantMessage env.asstAddTs with
            | .error e =>
              (scmFail (SendChatMessage.handleError (.jsError e)),
               [.sendChat chatRequest])
            | .ok finalConversation =>
              match repo.saveConversation finalConversation with
              | .error e =>
                (scmFail (SendChatMessage.handleError e),
                 [.sendChat chatRequest, .saveConv finalConversation])
              | .ok _ =>
                (⟨true, some finalConversation, some assistantMessage, none⟩,
                 [.sendChat chatRequest, .saveConv finalConversation])

/-! ## LoadConversations use case
(src/src/modules/ai/domain/use-cases/LoadConversations.ts) -/

/-- `LoadConversationsRequest`: an optional numeric limit; a JS number at
this boundary is modelled as a rational (`Number.isInteger` becomes
"denominator 1"; `NaN`/infinities are outside the model and fail the
integer test in JS just as every non-integral rational does here). -/
structure LoadConversationsRequest where
  limit : Option ℚ
deriving DecidableEq

/-- `LoadConversationsResult`. -/
structure LoadConversationsResult where
  success : Bool
  conversations : Option (List Conversation)
  error : Option String
deriving DecidableEq

/-- `LoadConversations.validateRequest`. -/
def LoadConversations.validateRequest (r : LoadConversationsRequest) : Option String :=
  match r.limit with
  | none => none
  | some l =>
    if ¬(l.den = 1) ∨ l < 1 then some "Limit must be a positive integer"
    else if l > 100 then some "Limit cannot exceed 100 conversations"
    else none

/-- `LoadConversations.handleError`. -/
def LoadConversations.handleError : JsThrown → String
  | .jsError msg =>
    if jsIncludes msg "Failed to load conversations" then
      "Failed to load conversations. Please try again."
    else msg
  | .nonError => "An unexpected error occurred while loading conversations."

/-- `LoadConversations.execute`: validate, then delegate to the
repository's local-storage listing. -/
def LoadConversations.execute (repo : AiRepo) (request : LoadConversationsRequest) :
    LoadConversationsResult × List RepoCall :=
  match LoadConversations.validateRequest request with
  | some e => (⟨false, none, some e⟩, [])
  | none =>
    match repo.loadConversations request.limit with
    | .error e =>
      (⟨false, none, some (LoadConversations.handleError e)⟩, [.loadConvs request.limit])
    | .ok conversations =>
      (⟨true, some conversations, none⟩, [.loadConvs request.limit])

/-! ## RequestAstrologyReading use case
(src/src/modules/ai/domain/use-cases/RequestSpiritualGuidance.ts,
class `RequestAstrologyReading`) -/

/-- The digit test of the JS `\d` class. -/
def isDigitCh (c : Char) : Bool := c.isDigit

/-- The date regex `^\d{4}-\d{2}-\d{2}$`. -/
def dateRegexOk (s : String) : Bool :=
  match s.data with
  | [a, b, c, d, e, f, g, h, i, j] =>
    isDigitCh a && isDigitCh b && isDigitCh c && isDigitCh d && e == '-' &&
    isDigitCh f && isDigitCh g && h == '-' && isDigitCh i && isDigitCh j
  | _ => false

/-- Numeric value of a decimal digit character. -/
def digitVal (c : Char) : Nat := c.toNat - 48

/-- Year, month and day read out of a string already matching
`^\d{4}-\d{2}-\d{2}$`. -/
def parseYMD (s : String) : Nat × Nat × Nat :=
  match s.data with
  | [a, b, c, d, _, f, g, _, i, j] =>
    (1000 * digitVal a + 100 * digitVal b + 10 * digitVal c + digitVal d,
     10 * digitVal f + digitVal g,
     10 * digitVal i + digitVal j)
  | _ => (0, 0, 0)

/-- Gregorian leap year. -/
def isLeapYear (y : Nat) : Bool := (y % 4 == 0 && y % 100 != 0) || y % 400 == 0

/-- Days in a month of the Gregorian calendar. -/
def daysInMonth (y m : Nat) : Nat :=
  if m = 2 then (if isLeapYear y then 29 else 28)
  else if m = 4 ∨ m = 6 ∨ m = 9 ∨ m = 11 then 30
  else 31

/-- The ECMAScript validity of a `YYYY-MM-DD` string that matched the date
regex: `new Date(s)` yields an Invalid Date (`isNaN(date.getTime())`)
exactly when the month or day is out of calendar range. -/
def validYMD (y m d : Nat) : Bool :=
  1 ≤ m && m ≤ 12 && 1 ≤ d && d ≤ daysInMonth y m

/-- Days since the Unix epoch of a Gregorian calendar date
(Howard Hinnant's `days_from_civil`, with floor division). -/
def daysFromCivil (y m d : Int) : Int :=
  let yAdj : Int := if m ≤ 2 then y - 1 else y
  let era : Int := yAdj.fdiv 400
  let yoe : Int := yAdj - era * 400
  let mp : Int := m + (if m > 2 then -3 else 9)
  let doy : Int := (153 * mp + 2).fdiv 5 + d - 1
  let doe : Int := yoe * 365 + yoe.fdiv 4 - yoe.fdiv 100 + doy
  era * 146097 + doe - 719468

/-- The instant (ms since the epoch) ECMAScript assigns to a `YYYY-MM-DD`
string: midnight UTC of that calendar day. -/
def msOfYMD (y m d : Nat) : Int :=
  daysFromCivil (Int.ofNat y) (Int.ofNat m) (Int.ofNat d) * 86400000

/-- The time regex `^([01]\d|2[0-3]):([0-5]\d)$`. -/
def timeRegexOk (s : String) : Bool :=
  match s.data with
  | [h1, h2, c, m1, m2] =>
    ((h1 == '0' || h1 == '1') && isDigitCh h2 ||
     h1 == '2' && ('0' ≤ h2 && h2 ≤ '3')) &&
    c == ':' && ('0' ≤ m1 && m1 ≤ '5') && isDigitCh m2
  | _ => false

/-- The timezone regex `^[A-Za-z_+\-0-9/]+$`. -/
def tzRegexOk (s : String) : Bool :=
  !s.data.isEmpty &&
  s.data.all fun c =>
    ('A' ≤ c && c ≤ 'Z') || ('a' ≤ c && c ≤ 'z') || isDigitCh c ||
    c == '_' || c == '+' || c == '-' || c == '/'

/-- The `"Partner's"` prefix used in partner-side error messages. -/
def partnerPrefix : String := "Partner" ++ (Char.ofNat 39).toString ++ "s"

/-- `RequestAstrologyReading.validateBirthInfo(birthInfo, prefix)`, over
the individual fields so that it serves both the primary subject and the
partner.  `nowMs` is the instant of the `new Date()` the future check
compares against. -/
def validateBirthInfo (nowMs : Int) (dob timeS place : String)
    (tz : Option String) (pfx : String) : Option String :=
  if jsTrim dob = "" then some (pfx ++ " date of birth is required")
  else if !dateRegexOk dob then
    some (pfx ++ " date of birth must be in YYYY-MM-DD format")
  else
    let ymd := parseYMD dob
    if !validYMD ymd.1 ymd.2.1 ymd.2.2 then
      some (pfx ++ " date of birth is not a valid date")
    else if msOfYMD ymd.1 ymd.2.1 ymd.2.2 > nowMs then
      some (pfx ++ " date of birth cannot be in the future")
    else if msOfYMD ymd.1 ymd.2.1 ymd.2.2 < msOfYMD 1900 1 1 then
      some (pfx ++ " date of birth cannot be before 1900")
    else if jsTrim timeS = "" then some (pfx ++ " time of birth is required")
    else if !timeRegexOk timeS then
      some (pfx ++ " time of birth must be in HH:MM format (24-hour)")
    else if jsTrim place = "" then some (pfx ++ " place of birth is required")
    else if place.length < 2 then
      some (pfx ++ " place of birth must be at least 2 characters")
    else if place.length > 100 then
      some (pfx ++ " place of birth must be under 100 characters")
    else
      match tz with
      | none => none
      | some t =>
        if t != "" then
          if t.length > 50 then some (pfx ++ " timezone must be under 50 characters")
          else if !tzRegexOk t then some (pfx ++ " timezone format is invalid")
          else none
        else none

/-- `RequestAstrologyReadingRequest`. -/
structure AstrologyReadingRequest where
  birthInfo : BirthInfo
  readingType : String
  partnerBirthInfo : Option PartnerBirthInfo
deriving DecidableEq

/-- `RequestAstrologyReadingResult`. -/
structure AstrologyReadingResult where
  success : Bool
  reading : Option AstrologyResponse
  error : Option String
deriving DecidableEq

/-- The fixed set of allowed reading types, in source order. -/
def allowedReadingTypes : List String :=
  ["natal_chart", "daily_horoscope", "compatibility", "transit",
   "solar_return", "lunar_return", "composite_chart", "synastry"]

/-- The reading types that involve a partner. -/
def partnerReadingTypes : List String :=
  ["compatibility", "composite_chart", "synastry"]

/-- The invalid-reading-type error message, with the joined allowed
list. -/
def invalidReadingTypeMsg : String :=
  "Invalid reading type. Allowed types: " ++ String.intercalate ", " allowedReadingTypes

/-- `RequestAstrologyReading.validateRequest`. -/
def RequestAstrologyReading.validateRequest (nowMs : Int)
    (r : AstrologyReadingRequest) : Option String :=
  match validateBirthInfo nowMs r.birthInfo.dateOfBirth r.birthInfo.timeOfBirth
      r.birthInfo.placeOfBirth r.birthInfo.timezone "Your" with
  | some e => some e
  | none =>
    if jsTrim r.readingType = "" then some "Reading type is required"
    else if r.readingType.length > 100 then
      some "Reading type must be under 100 characters"
    else if !(allowedReadingTypes.contains (jsTrim r.readingType)) then
      some invalidReadingTypeMsg
    else
      match r.partnerBirthInfo with
      | some partner =>
        if !(partnerReadingTypes.contains (jsTrim r.readingType)) then
          some ("Partner birth info is not needed for " ++ r.readingType ++ " reading")
        else
          validateBirthInfo nowMs partner.dateOfBirth partner.timeOfBirth
            partner.placeOfBirth none partnerPrefix
      | none =>
        if partnerReadingTypes.contains (jsTrim r.readingType) then
          some ("Partner birth information is required for " ++ r.readingType ++ " reading")
        else none

/-- `RequestAstrologyReading.handleError`. -/
def RequestAstrologyReading.handleError : JsThrown → String
  | .jsError msg =>
    if jsIncludes msg "Authentication required" then
      "Authentication required. Please log in."
    else if jsIncludes msg "Access denied" then
      "Access denied. Please check your permissions."
    else if jsIncludes msg "Too many requests" then
      "Too many requests. Please try again later."
    else if jsIncludes msg "temporarily unavailable" then
      "Astrology service is temporarily unavailable. Please try again later."
    else if jsIncludes msg "Invalid birth data" then
      "Invalid birth information. Please check your date, time, and location."
    else if jsIncludes msg "Invalid request data" then
      "Invalid request. Please check your input and try again."
    else if jsIncludes msg "Network connection failed" then
      "Network connection failed. Please check your internet connection."
    else msg
  | .nonError => "An unexpected error occurred. Please try again."

/-- `RequestAstrologyReading.execute`: validate, trim the forwarded
places/reading type, delegate, catch and map errors. -/
def RequestAstrologyReading.execute (repo : AiRepo) (nowMs : Int)
    (request : AstrologyReadingRequest) : AstrologyReadingResult × List RepoCall :=
  match RequestAstrologyReading.validateRequest nowMs request with
  | some e => (⟨false, none, some e⟩, [])
  | none =>
    let astrologyRequest : AstrologyRequest :=
      { birthInfo :=
          { dateOfBirth := request.birthInfo.dateOfBirth
            timeOfBirth := request.birthInfo.timeOfBirth
            placeOfBirth := jsTrim request.birthInfo.placeOfBirth
            timezone := request.birthInfo.timezone }
        readingType := jsTrim request.readingType
        partnerBirthInfo := request.partnerBirthInfo.map fun p =>
          { dateOfBirth := p.dateOfBirth
            timeOfBirth := p.timeOfBirth
            placeOfBirth := jsTrim p.placeOfBirth } }
    match repo.requestAstrologyReading astrologyRequest with
    | .error e =>
      (⟨false, none, some (RequestAstrologyReading.handleError e)⟩,
       [.astroRead astrologyRequest])
    | .ok reading =>
      (⟨true, some reading, none⟩, [.astroRead astrologyRequest])

/-! ## Auth use cases
(src/src/modules/auth/domain/use-cases/LoginUser.ts, RegisterUser.ts) -/

/-- The authenticated-user payload a repository returns.  Its inner
validation (the `User` entity) is not touched by any claim, so only an
opaque carrier is modelled. -/
structure UserM where
  id : String
  email : String
deriving DecidableEq

/-- The token pair. -/
structure Tokens where
  accessToken : String
  refreshToken : String
deriving DecidableEq

/-- What `IAuthRepository.login`/`register` resolve with. -/
structure AuthSession where
  user : UserM
  tokens : Tokens
deriving DecidableEq

/-- `LoginCredentials`. -/
structure LoginCredentials where
  email : String
  password : String
deriving DecidableEq

/-- `RegisterData`. -/
structure RegisterData where
  email : String
  password : String
  firstName : String
  lastName : String
deriving DecidableEq

/-- The `IAuthRepository` capabilities the auth use cases consume. -/
structure AuthRepo where
  login : LoginCredentials → Except JsThrown AuthSession
  register : RegisterData → Except JsThrown AuthSession
  storeTokens : Tokens → Except JsThrown Unit

/-- The email regex `^[^\s@]+@[^\s@]+\.[^\s@]+$`.  A string matches it
exactly when it splits as `A ++ "@" ++ B ++ "." ++ C` with `A`, `B`, `C`
non-empty and free of whitespace and `@`; since no part may contain `@`,
that is: no whitespace anywhere, exactly one `@`, a non-empty part before
it, and a `.` at an interior position of the part after it. -/
def emailRegexOk (s : String) : Bool :=
  let cs := s.data
  !(cs.any Char.isWhitespace) && cs.count '@' == 1 &&
  (let before := cs.takeWhile fun c => c != '@'
   let after := (cs.dropWhile fun c => c != '@').tail
   !before.isEmpty && ((after.drop 1).dropLast.contains '.'))

/-- The uppercase test `/[A-Z]/.test(password)`. -/
def hasUppercase (s : String) : Bool :=
  s.data.any fun c => 'A' ≤ c && c ≤ 'Z'

/-- The special-character class of the password rule:
`[!@#$%^&*(),.?":{}|<>~`\-_+=\[\]\;']`. -/
def specialChars : List Char :=
  "!@#$%^&*(),.?\x22:\x7b\x7d|<>~\x60-_+=[]\\;\x27".data

/-- The special-character test of the password rule. -/
def hasSpecialChar (s : String) : Bool :=
  s.data.any fun c => specialChars.contains c

/-- `LoginResult` (and, with the same shape, `RegisterResult`). -/
structure LoginResult where
  isSuccess : Bool
  user : Option UserM
  tokens : Option Tokens
  error : Option String
deriving DecidableEq

/-- The failure result `{ isSuccess: false, error }`. -/
def authFail (e : String) : LoginResult :=
  ⟨false, none, none, some e⟩

/-- The catch block of `LoginUser.execute`: a thrown
`Error('Invalid credentials')` keeps its literal message, anything else
becomes the generic login failure. -/
def loginCatch : JsThrown → LoginResult
  | .jsError m =>
    if m = "Invalid credentials" then authFail "Invalid credentials"
    else authFail "Login failed. Please try again."
  | .nonError => authFail "Login failed. Please try again."

/-- `LoginUser.execute`. -/
def LoginUser.execute (repo : AuthRepo) (credentials : LoginCredentials) : LoginResult :=
  if !emailRegexOk credentials.email then authFail "Invalid email format"
  else if credentials.password.length < 8 then
    authFail "Password must be at least 8 characters long"
  else if !hasUppercase credentials.password then
    authFail "Password must contain at least one uppercase letter"
  else if !hasSpecialChar credentials.password then
    authFail "Password must contain at least one special character"
  else
    match repo.login credentials with
    | .error e => loginCatch e
    | .ok result =>
      match repo.storeTokens result.tokens with
      | .error e => loginCatch e
      | .ok _ => ⟨true, some result.user, some result.tokens, none⟩

/-- The catch block of `RegisterUser.execute`: a thrown
`Error('User already exists')` keeps its literal message, any other
`Error` surfaces its raw message, a non-`Error` becomes the generic
registration failure. -/
def registerCatch : JsThrown → LoginResult
  | .jsError m =>
    if m = "User already exists" then authFail "User already exists"
    else authFail m
  | .nonError => authFail "Registration failed. Please try again."

/-- `RegisterUser.execute`. -/
def RegisterUser.execute (repo : AuthRepo) (data : RegisterData) : LoginResult :=
  if !emailRegexOk data.email then authFail "Invalid email format"
  else if data.password.length < 8 then
    authFail "Password must be at least 8 characters long"
  else if !hasUppercase data.password then
    authFail "Password must contain at least one uppercase letter"
  else if !hasSpecialChar data.password then
    authFail "Password must contain at least one special character"
  else if jsTrim data.firstName = "" then authFail "First name is required"
  else if jsTrim data.lastName = "" then authFail "Last name is required"
  else
    match repo.register data with
    | .error e => registerCatch e
    | .ok result =>
      match repo.storeTokens result.tokens with
      | .error e => registerCatch e
      | .ok _ => ⟨true, some result.user, some result.tokens, none⟩

/-! ## RequestSpiritualGuidance use case
(src/src/modules/ai/domain/use-cases/RequestSpiritualGuidance.ts,
class `RequestSpiritualGuidance`) -/

/-- The `userContext` of a `RequestSpiritualGuidanceRequest`.
`experienceLevel` is a plain string (`""` models an absent/falsy level,
which the validation rejects here). -/
structure SpiritualUserContext where
  spiritualGoals : List String
  currentChallenges : List String
  experienceLevel : String
  preferredPractices : List String
  timeAvailable : Option String
  previousExperiences : List String
deriving DecidableEq

/-- `RequestSpiritualGuidanceRequest`; `userContext` is optional because
`validateRequest` checks its presence at run time. -/
structure SpiritualGuidanceRequest where
  topic : String
  userContext : Option SpiritualUserContext
deriving DecidableEq

/-- The request forwarded to the repository (trimmed topic). -/
structure SpiritualGuidanceWireRequest where
  topic : String
  userContext : SpiritualUserContext
deriving DecidableEq

/-- `SpiritualGuidanceResponse` payload, carried through untouched; kept
opaque since no claim inspects it. -/
structure SpiritualGuidanceResponse where
  payload : String
deriving DecidableEq

/-- `RequestSpiritualGuidanceResult`. -/
structure SpiritualGuidanceResult where
  success : Bool
  guidance : Option SpiritualGuidanceResponse
  error : Option String
deriving DecidableEq

/-- The inner `validateStringArray(arr, name, maxLength)` helper: first
failing element wins (the `typeof item !== 'string'` disjunct always
passes in this typed model). -/
def validateStringArray (arr : List String) (name : String) (maxLength : Nat) :
    Option String :=
  match arr with
  | [] => none
  | item :: rest =>
    if jsTrim item = "" then some ("All " ++ name ++ " must be non-empty strings")
    else if item.length > maxLength then
      some (name ++ " items must be under " ++ toString maxLength ++ " characters")
    else validateStringArray rest name maxLength

/-- `RequestSpiritualGuidance.validateRequest` (the two
`Array.isArray` checks always pass in this typed model). -/
def RequestSpiritualGuidance.validateRequest (r : SpiritualGuidanceRequest) :
    Option String :=
  if jsTrim r.topic = "" then some "Topic cannot be empty"
  else if r.topic.length > 200 then
    some "Topic too long. Please keep topics under 200 characters."
  else
    match r.userContext with
    | none => some "User context is required"
    | some uc =>
      if uc.experienceLevel = "" ∨
          ¬(["beginner", "intermediate", "advanced"].contains uc.experienceLevel) then
        some "Invalid experience level. Must be beginner, intermediate, or advanced."
      else if uc.spiritualGoals.isEmpty then
        some "At least one spiritual goal is required"
      else if uc.currentChallenges.isEmpty then
        some "At least one current challenge is required"
      else if uc.preferredPractices.isEmpty then
        some "At least one preferred practice is required"
      else if uc.spiritualGoals.length > 10 then
        some "Too many spiritual goals. Please limit to 10 or fewer."
      else if uc.currentChallenges.length > 10 then
        some "Too many challenges. Please limit to 10 or fewer."
      else if uc.preferredPractices.length > 15 then
        some "Too many preferred practices. Please limit to 15 or fewer."
      else if uc.previousExperiences.length > 20 then
        some "Too many previous experiences. Please limit to 20 or fewer."
      else
        match validateStringArray uc.spiritualGoals "spiritual goals" 100 with
        | some e => some e
        | none =>
          match validateStringArray uc.currentChallenges "challenges" 100 with
          | some e => some e
          | none =>
            match validateStringArray uc.preferredPractices "practices" 50 with
            | some e => some e
            | none =>
              match validateStringArray uc.previousExperiences "experiences" 200 with
              | some e => some e
              | none =>
                match uc.timeAvailable with
                | some t =>
                  if t != "" && t.length > 50 then
                    some "Time available description must be under 50 characters"
                  else none
                | none => none

/-- `RequestSpiritualGuidance.handleError`. -/
def RequestSpiritualGuidance.handleError : JsThrown → String
  | .jsError msg =>
    if jsIncludes msg "Authentication required" then
      "Authentication required. Please log in."
    else if jsIncludes msg "Access denied" then
      "Access denied. Please check your permissions."
    else if jsIncludes msg "Too many requests" then
      "Too many requests. Please try again later."
    else if jsIncludes msg "temporarily unavailable" then
      "Spiritual guidance service is temporarily unavailable. Please try again later."
    else if jsIncludes msg "Invalid request data" then
      "Invalid request. Please check your input and try again."
    else if jsIncludes msg "Network connection failed" then
      "Network connection failed. Please check your internet connection."
    else msg
  | .nonError => "An unexpected error occurred. Please try again."

/-- The spiritual-guidance repository capability (kept out of `AiRepo` to
leave the earlier traces unchanged; it is the `requestSpiritualGuidance`
method of the same `IAiRepository`). -/
structure GuidanceRepo where
  requestSpiritualGuidance :
    SpiritualGuidanceWireRequest → Except JsThrown SpiritualGuidanceResponse

/-- `RequestSpiritualGuidance.execute`. -/
def RequestSpiritualGuidance.execute (repo : GuidanceRepo)
    (request : SpiritualGuidanceRequest) : SpiritualGuidanceResult :=
  match RequestSpiritualGuidance.validateRequest request with
  | some e => ⟨false, none, some e⟩
  | none =>
    match request.userContext with
    | none => ⟨false, none, some "User context is required"⟩
    | some uc =>
      match repo.requestSpiritualGuidance ⟨jsTrim request.topic, uc⟩ with
      | .error e => ⟨false, none, some (RequestSpiritualGuidance.handleError e)⟩
      | .ok guidance => ⟨true, some guidance, none⟩

/-! ## Shared lemmas -/

theorem mkMessage_ok {p : MessageProps} {m : Message} (h : mkMessage p = .ok m) :
    m.props = p := by
  unfold mkMessage at h
  cases hv : validateMessage p with
  | some e => rw [hv] at h; cases h
  | none => rw [hv] at h; cases h; rfl

theorem mkMessage_ok_valid {p : MessageProps} {m : Message} (h : mkMessage p = .ok m) :
    validateMessage p = none := by
  unfold mkMessage at h
  cases hv : validateMessage p with
  | some e => rw [hv] at h; cases h
  | none => rfl

theorem mkConversation_ok {p : ConversationProps} {c : Conversation}
    (h : mkConversation p = .ok c) : c.props = p := by
  unfold mkConversation at h
  cases hv : validateConversation p with
  | some e => rw [hv] at h; cases h
  | none => rw [hv] at h; cases h; rfl

theorem addMessage_ok_messages {c : Conversation} {m : Message} {now : Int}
    {c2 : Conversation} (h : c.addMessage m now = .ok c2) :
    c2.props.messages = c.props.messages ++ [m] := by
  unfold Conversation.addMessage at h
  by_cases hm : cidMismatch c m = true
  · rw [if_pos hm] at h; cases h
  · rw [if_neg hm] at h
    exact congrArg ConversationProps.messages (mkConversation_ok h)

theorem createWithFirstMessage_ok_messages {tok : String} {t0 t1 : Int} {m : Message}
    {uid : Option String} {c : Conversation}
    (h : createWithFirstMessage tok t0 t1 m uid = .ok c) :
    c.props.messages = [m] := by
  unfold createWithFirstMessage at h
  cases hn : createNew tok t0 uid with
  | error e => rw [hn] at h; cases h
  | ok c0 =>
    rw [hn] at h
    have h0 : c0.props.messages = [] :=
      congrArg ConversationProps.messages (mkConversation_ok hn)
    have := addMessage_ok_messages h
    rw [h0] at this
    simpa using this

theorem createUserMessage_ok_props {tok : String} {ts : Int} {content : String}
    {cid : Option String} {m : Message}
    (h : createUserMessage tok ts content cid = .ok m) :
    m.props.content = jsTrim content ∧ m.props.role = "user" := by
  have := mkMessage_ok h
  rw [this]
  exact ⟨rfl, rfl⟩

/-! ## Claim C4 -/

/-- C4: for all valid `MessageProps`, `new Message(props)` succeeds and
every getter returns the stored value (or the empty list for omitted
sequence fields); for invalid props the constructor fails with the exact
message of the first violated invariant, in the order id → content empty →
content length → role → timestamp; content of length exactly 2000 is
accepted, and any content of length 2001 is rejected. -/
theorem c4_message_constructor_contract :
    (∀ p : MessageProps, validateMessage p = none →
      ∃ m, mkMessage p = .ok m ∧ m.id = p.id ∧ m.role = p.role ∧
        m.content = p.content ∧ m.timestamp = p.timestamp ∧
        m.conversationId = p.conversationId ∧
        m.spiritualThemes = p.spiritualThemes.getD [] ∧
        m.suggestedActions = p.suggestedActions.getD [] ∧
        m.relatedTopics = p.relatedTopics.getD []) ∧
    (∀ p : MessageProps, jsTrim p.id = "" →
      mkMessage p = .error "Message ID is required") ∧
    (∀ p : MessageProps, jsTrim p.id ≠ "" → jsTrim p.content = "" →
      mkMessage p = .error "Message content cannot be empty") ∧
    (∀ p : MessageProps, jsTrim p.id ≠ "" → jsTrim p.content ≠ "" →
      p.content.length > 2000 →
      mkMessage p = .error "Message too long. Please keep messages under 2000 characters.") ∧
    (∀ p : MessageProps, jsTrim p.id ≠ "" → jsTrim p.content ≠ "" →
      p.content.length ≤ 2000 → ¬(p.role = "user" ∨ p.role = "assistant") →
      mkMessage p = .error "Invalid message role. Must be \x22user\x22 or \x22assistant\x22") ∧
    (∀ p : MessageProps, jsTrim p.id ≠ "" → jsTrim p.content ≠ "" →
      p.content.length ≤ 2000 → (p.role = "user" ∨ p.role = "assistant") →
      p.timestamp = none →
      mkMessage p = .error "Message timestamp is required") ∧
    (∀ p : MessageProps, jsTrim p.id ≠ "" → jsTrim p.content ≠ "" →
      p.content.length = 2000 → (p.role = "user" ∨ p.role = "assistant") →
      p.timestamp ≠ none → ∃ m, mkMessage p = .ok m) ∧
    (∀ p : MessageProps, p.content.length = 2001 → ∃ e, mkMessage p = .error e) := by
  refine ⟨?_, ?_, ?_, ?_, ?_, ?_, ?_, ?_⟩
  · intro p hv
    refine ⟨⟨p⟩, ?_, rfl, rfl, rfl, rfl, rfl, rfl, rfl, rfl⟩
    unfold mkMessage
    rw [hv]
  · intro p h
    unfold mkMessage validateMessage
    rw [if_pos h]
  · intro p h1 h2
    unfold mkMessage validateMessage
    rw [if_neg h1, if_pos h2]
  · intro p h1 h2 h3
    unfold mkMessage validateMessage
    rw [if_neg h1, if_neg h2, if_pos h3]
  · intro p h1 h2 h3 h4
    unfold mkMessage validateMessage
    rw [if_neg h1, if_neg h2, if_neg (by omega), if_pos h4]
  · intro p h1 h2 h3 h4 h5
    unfold mkMessage validateMessage
    rw [if_neg h1, if_neg h2, if_neg (by omega), if_neg (not_not_intro h4), if_pos h5]
  · intro p h1 h2 h3 h4 h5
    refine ⟨⟨p⟩, ?_⟩
    unfold mkMessage validateMessage
    rw [if_neg h1, if_neg h2, if_neg (by omega), if_neg (not_not_intro h4), if_neg h5]
  · intro p h
    unfold mkMessage validateMessage
    by_cases h1 : jsTrim p.id = ""
    · exact ⟨_, by rw [if_pos h1]⟩
    · by_cases h2 : jsTrim p.content = ""
      · exact ⟨_, by rw [if_neg h1, if_pos h2]⟩
      · exact ⟨_, by rw [if_neg h1, if_neg h2, if_pos (by omega)]⟩

theorem jsTrim_ne_empty_of_head (c : Char) (rest : List Char)
    (hc : c.isWhitespace = false) : jsTrim ⟨c :: rest⟩ ≠ "" := by
  unfold jsTrim
  intro h
  have hdata : ((((c :: rest).dropWhile Char.isWhitespace).reverse.dropWhile
      Char.isWhitespace).reverse) = [] := congrArg String.data h
  rw [List.dropWhile_cons, hc] at hdata
  simp only [Bool.false_eq_true, if_false, List.reverse_eq_nil_iff,
    List.dropWhile_eq_nil_iff] at hdata
  have := hdata c (by simp)
  rw [hc] at this
  cases this

/-- C4 witness: the contract applied at concrete props, including the
2000/2001 content-length boundary. -/
theorem c4_witness :
    (∃ m, mkMessage ⟨"m-1", "user", ⟨List.replicate 2000 'a'⟩, some 0,
        none, none, none, none⟩ = .ok m) ∧
    mkMessage ⟨"", "user", "hi", some 0, none, none, none, none⟩ =
      .error "Message ID is required" ∧
    (∃ e, mkMessage ⟨"m-1", "user", ⟨List.replicate 2001 'a'⟩, some 0,
        none, none, none, none⟩ = .error e) ∧
    mkMessage ⟨"m-1", "moderator", "hi", some 0, none, none, none, none⟩ =
      .error "Invalid message role. Must be \x22user\x22 or \x22assistant\x22" := by
  have h2000 : jsTrim ⟨List.replicate 2000 'a'⟩ ≠ "" := by
    rw [show (2000 : Nat) = 1999 + 1 from rfl, List.replicate_succ]
    exact jsTrim_ne_empty_of_head _ _ (by decide)
  have l2000 : (String.mk (List.replicate 2000 'a')).length = 2000 := by
    show (List.replicate 2000 'a').length = 2000
    rw [List.length_replicate]
  have l2001 : (String.mk (List.replicate 2001 'a')).length = 2001 := by
    show (List.replicate 2001 'a').length = 2001
    rw [List.length_replicate]
  refine ⟨?_, ?_, ?_, ?_⟩
  · exact c4_message_constructor_contract.2.2.2.2.2.2.1 _ (by decide) h2000
      l2000 (Or.inl rfl) (by decide)
  · exact c4_message_constructor_contract.2.1 _ (by decide)
  · exact c4_message_constructor_contract.2.2.2.2.2.2.2 _ l2001
  · exact c4_message_constructor_contract.2.2.2.2.1 _ (by decide) (by decide)
      (by decide) (by decide)

/-! ## Claim C1 -/

/-- Conversation used by the C1 counterexample: a valid conversation whose
creation instant (100) lies after the instant at which `addMessage` runs
(50). -/
def c1exConv : Conversation := ⟨⟨"c-1", [], some 100, some 100, none, none⟩⟩

/-- Message used by the C1 counterexample: valid, with no
`conversationId`. -/
def c1exMsg : Message := ⟨⟨"m-1", "user", "hello", some 10, none, none, none, none⟩⟩

/-- C1 counterexample: `addMessage` can throw even though the message's
`conversationId` is unset — the rebuilt conversation's `updatedAt` (the
current instant) precedes `createdAt`, so the constructor's ordering check
fires.  This refutes "throws exactly when `m.conversationId` is set and
differs from `c.id`". -/
theorem c1_counterexample :
    validateConversation c1exConv.props = none ∧
    validateMessage c1exMsg.props = none ∧
    c1exMsg.props.conversationId = none ∧
    Conversation.addMessage c1exConv c1exMsg 50 =
      .error "Update date cannot be before creation date" := by
  decide

/-- C1 (amended): for every valid conversation `c` and message `m`,
`c.addMessage m` run at instant `now` (a) throws the mismatch error when
`m.conversationId` is a non-empty string different from `c.id`; (b) throws
the date-ordering error when there is no mismatch but `now` precedes
`c.createdAt`; (c) otherwise returns a new conversation with the same id
and `c`'s list with `m` appended, whose count is `c`'s count plus one
(`c` itself is a pure value here, so it is unchanged by construction). -/
theorem c1_addMessage_amended (c : Conversation) (m : Message) (now tc : Int)
    (hv : validateConversation c.props = none) (hc : c.props.createdAt = some tc) :
    (cidMismatch c m = true →
      c.addMessage m now = .error "Message conversation ID does not match") ∧
    (cidMismatch c m = false → now < tc →
      c.addMessage m now = .error "Update date cannot be before creation date") ∧
    (cidMismatch c m = false → tc ≤ now →
      ∃ c2, c.addMessage m now = .ok c2 ∧
        c2.props.messages = c.props.messages ++ [m] ∧
        c2.getMessageCount = c.getMessageCount + 1 ∧
        c2.props.id = c.props.id ∧ c2.props.createdAt = c.props.createdAt) := by
  have hid : ¬(jsTrim c.props.id = "") := by
    intro h
    rw [validateConversation, if_pos h] at hv
    cases hv
  refine ⟨?_, ?_, ?_⟩
  · intro hm
    rw [Conversation.addMessage, if_pos hm]
  · intro hm hlt
    rw [Conversation.addMessage, if_neg (by simp [hm]), mkConversation,
      validateConversation]
    simp only [hc, if_neg hid]
    rw [if_pos hlt]
  · intro hm hle
    refine ⟨⟨{ c.props with
        messages := c.props.messages ++ [m]
        updatedAt := some now }⟩, ?_, rfl, ?_, rfl, rfl⟩
    · rw [Conversation.addMessage, if_neg (by simp [hm]), mkConversation,
        validateConversation]
      simp only [hc, if_neg hid]
      rw [if_neg (by omega)]
    · show (c.props.messages ++ [m]).length = c.props.messages.length + 1
      simp

/-- C1 witness: the amended statement applied at concrete inputs — a
mismatching id throws, and a well-ordered append succeeds with the count
incremented. -/
theorem c1_witness :
    Conversation.addMessage c1exConv ⟨⟨"m-2", "user", "hello", some 10,
        some "other-conv", none, none, none⟩⟩ 200 =
      .error "Message conversation ID does not match" ∧
    (∃ c2, Conversation.addMessage c1exConv c1exMsg 200 = .ok c2 ∧
      c2.props.messages = c1exConv.props.messages ++ [c1exMsg] ∧
      c2.getMessageCount = c1exConv.getMessageCount + 1 ∧
      c2.props.id = c1exConv.props.id ∧
      c2.props.createdAt = c1exConv.props.createdAt) := by
  constructor
  · exact (c1_addMessage_amended c1exConv _ 200 100 (by decide) (by decide)).1
      (by decide)
  · exact (c1_addMessage_amended c1exConv c1exMsg 200 100 (by decide)
      (by decide)).2.2 (by decide) (by decide)

/-! ## Claim C3 -/

theorem fromJSON_toJSON_message (m : Message) (hm : validateMessage m.props = none) :
    Message.fromJSON (Message.toJSON m) = .ok m := by
  unfold Message.fromJSON Message.toJSON
  have ht : (m.props.timestamp.map JsonDateVal.asDate).map newDateOfJson =
      m.props.timestamp := by cases m.props.timestamp <;> rfl
  rw [ht]
  show mkMessage m.props = .ok m
  rw [mkMessage, hm]

theorem fromJSON_stringify_toJSON_message (m : Message)
    (hm : validateMessage m.props = none) :
    Message.fromJSON ((Message.toJSON m).stringifyDates) = .ok m := by
  unfold Message.fromJSON Message.toJSON MessageJson.stringifyDates
  have ht : ((m.props.timestamp.map JsonDateVal.asDate).map stringifyDateVal).map
      newDateOfJson = m.props.timestamp := by cases m.props.timestamp <;> rfl
  simp only
  rw [ht]
  show mkMessage m.props = .ok m
  rw [mkMessage, hm]

theorem mapM_fromJSON_toJSON (ms : List Message)
    (h : ∀ x ∈ ms, validateMessage x.props = none) :
    (ms.map Message.toJSON).mapM Message.fromJSON = .ok ms := by
  induction ms with
  | nil => rfl
  | cons a l ih =>
    rw [List.map_cons, List.mapM_cons, fromJSON_toJSON_message a (h a (by simp)),
      ih fun x hx => h x (by simp [hx])]
    rfl

theorem mapM_fromJSON_stringify_toJSON (ms : List Message)
    (h : ∀ x ∈ ms, validateMessage x.props = none) :
    ((ms.map Message.toJSON).map MessageJson.stringifyDates).mapM Message.fromJSON =
      .ok ms := by
  induction ms with
  | nil => rfl
  | cons a l ih =>
    rw [List.map_cons, List.map_cons, List.mapM_cons,
      fromJSON_stringify_toJSON_message a (h a (by simp)),
      ih fun x hx => h x (by simp [hx])]
    rfl

/-- C3: serialization round-trips.  `fromJSON ∘ toJSON` reconstructs a
valid `Message` exactly (timestamp as a point in time) and a valid
`Conversation` exactly, nested message list included — both for the
in-memory composition and across `JSON.stringify`, where every date field
travels as the ISO-8601 string for its instant and is parsed back into the
same instant by `new Date(...)` on load. -/
theorem c3_serialization_roundtrip :
    (∀ m : Message, ValidMessage m →
      Message.fromJSON (Message.toJSON m) = .ok m) ∧
    (∀ m : Message, ValidMessage m →
      Message.fromJSON ((Message.toJSON m).stringifyDates) = .ok m) ∧
    (∀ c : Conversation, ValidConversation c →
      Conversation.fromJSON (Conversation.toJSON c) = .ok c) ∧
    (∀ c : Conversation, ValidConversation c →
      Conversation.fromJSON ((Conversation.toJSON c).stringifyDates) = .ok c) := by
  refine ⟨fun m hm => fromJSON_toJSON_message m hm,
    fun m hm => fromJSON_stringify_toJSON_message m hm, ?_, ?_⟩
  · intro c hv
    obtain ⟨hvc, hmsgs⟩ := hv
    unfold Conversation.fromJSON Conversation.toJSON
    rw [mapM_fromJSON_toJSON _ hmsgs]
    have h1 : (c.props.createdAt.map JsonDateVal.asDate).map newDateOfJson =
        c.props.createdAt := by cases c.props.createdAt <;> rfl
    have h2 : (c.props.updatedAt.map JsonDateVal.asDate).map newDateOfJson =
        c.props.updatedAt := by cases c.props.updatedAt <;> rfl
    show mkConversation _ = .ok c
    rw [h1, h2]
    show mkConversation c.props = .ok c
    rw [mkConversation, hvc]
  · intro c hv
    obtain ⟨hvc, hmsgs⟩ := hv
    unfold Conversation.fromJSON Conversation.toJSON ConversationJson.stringifyDates
    simp only
    rw [mapM_fromJSON_stringify_toJSON _ hmsgs]
    have h1 : ((c.props.createdAt.map JsonDateVal.asDate).map stringifyDateVal).map
        newDateOfJson = c.props.createdAt := by cases c.props.createdAt <;> rfl
    have h2 : ((c.props.updatedAt.map JsonDateVal.asDate).map stringifyDateVal).map
        newDateOfJson = c.props.updatedAt := by cases c.props.updatedAt <;> rfl
    show mkConversation _ = .ok c
    rw [h1, h2]
    show mkConversation c.props = .ok c
    rw [mkConversation, hvc]

instance (m : Message) : Decidable (ValidMessage m) := by
  unfold ValidMessage; infer_instance

instance (c : Conversation) : Decidable (ValidConversation c) := by
  unfold ValidConversation; infer_instance

/-- C3 witness: the round-trip laws applied to a concrete message and a
concrete two-message conversation, both in memory and across
stringification. -/
theorem c3_witness :
    Message.fromJSON (Message.toJSON ⟨⟨"m-1", "user", "hello", some 42,
      some "c-1", some ["inner_peace"], none, none⟩⟩) =
      .ok ⟨⟨"m-1", "user", "hello", some 42, some "c-1",
        some ["inner_peace"], none, none⟩⟩ ∧
    Conversation.fromJSON ((Conversation.toJSON ⟨⟨"c-1",
        [⟨⟨"m-1", "user", "hello", some 42, some "c-1",
          some ["inner_peace"], none, none⟩⟩,
         ⟨⟨"m-2", "assistant", "hi there", some 43, some "c-1", none,
          some ["meditate"], some ["mindfulness"]⟩⟩],
        some 10, some 43, some "greeting", some "u-1"⟩⟩).stringifyDates) =
      .ok ⟨⟨"c-1",
        [⟨⟨"m-1", "user", "hello", some 42, some "c-1",
          some ["inner_peace"], none, none⟩⟩,
         ⟨⟨"m-2", "assistant", "hi there", some 43, some "c-1", none,
          some ["meditate"], some ["mindfulness"]⟩⟩],
        some 10, some 43, some "greeting", some "u-1"⟩⟩ := by
  constructor
  · exact c3_serialization_roundtrip.1 _ (by decide)
  · exact c3_serialization_roundtrip.2.2.2 _ (by decide)

/-! ## Claim C5 -/

/-- A message (heap model) holding one stored spiritual-themes array at
reference 0. -/
def c5exMsg : MessageH := ⟨some 0, none, none⟩

/-- Heap for the C5 counterexample: reference 0 holds
`["inner_peace"]`. -/
def c5exHeap : Heap String := [["inner_peace"]]

/-- C5 counterexample: the `spiritualThemes` getter returns the internal
reference itself (not a copy), so mutating the returned array changes the
entity's stored state.  This refutes "every getter of a sequence-typed
field returns a defensive copy". -/
theorem c5_counterexample :
    (c5exMsg.getSpiritualThemes c5exHeap).1 = 0 ∧
    c5exMsg.spiritualThemes = some 0 ∧
    hRead (hWrite (c5exMsg.getSpiritualThemes c5exHeap).2 0 ["hacked"]) 0 ≠
      hRead c5exHeap 0 := by
  decide

theorem hRead_append_lt {α : Type} (h : Heap α) (v : List α) (r : Nat)
    (hr : r < h.length) : hRead (h ++ [v]) r = hRead h r := by
  unfold hRead
  rw [List.getD_eq_getElem?_getD, List.getD_eq_getElem?_getD,
    List.getElem?_append, if_pos hr]

theorem hRead_append_self {α : Type} (h : Heap α) (v : List α) :
    hRead (h ++ [v]) h.length = v := by
  unfold hRead
  rw [List.getD_eq_getElem?_getD, List.getElem?_append_right (Nat.le_refl _)]
  simp

theorem hRead_write_ne {α : Type} (h : Heap α) (r w : Nat) (v : List α)
    (hne : w ≠ r) : hRead (hWrite h w v) r = hRead h r := by
  unfold hRead hWrite
  rw [List.getD_eq_getElem?_getD, List.getD_eq_getElem?_getD,
    List.getElem?_set_ne hne]

/-- C5 (amended): `Conversation.messages` does return a defensive copy —
a freshly allocated array whose mutation leaves the stored array
untouched; but `Message`'s sequence getters (`spiritualThemes`,
`suggestedActions`, `relatedTopics`) return the stored array itself when
the field is set (so mutation through the returned array is visible in the
entity) and a fresh empty array only when the field is absent. -/
theorem c5_getters_aliasing :
    (∀ (h : Heap Nat) (c : ConversationH), c.messagesRef < h.length →
      (c.getMessages h).1 ≠ c.messagesRef ∧
      hRead (c.getMessages h).2 (c.getMessages h).1 = hRead h c.messagesRef ∧
      ∀ v, hRead (hWrite (c.getMessages h).2 (c.getMessages h).1 v)
        c.messagesRef = hRead h c.messagesRef) ∧
    (∀ (m : MessageH) (h : Heap String) (r : Nat),
      m.spiritualThemes = some r → m.getSpiritualThemes h = (r, h)) ∧
    (∀ (m : MessageH) (h : Heap String) (r : Nat),
      m.suggestedActions = some r → m.getSuggestedActions h = (r, h)) ∧
    (∀ (m : MessageH) (h : Heap String) (r : Nat),
      m.relatedTopics = some r → m.getRelatedTopics h = (r, h)) ∧
    (∀ (m : MessageH) (h : Heap String),
      m.spiritualThemes = none → m.getSpiritualThemes h = (h.length, h ++ [[]])) := by
  refine ⟨?_, ?_, ?_, ?_, ?_⟩
  · intro h c hr
    refine ⟨(Nat.ne_of_lt hr).symm, ?_, ?_⟩
    · show hRead (h ++ [hRead h c.messagesRef]) h.length = hRead h c.messagesRef
      exact hRead_append_self h _
    · intro v
      show hRead (hWrite (h ++ [hRead h c.messagesRef]) h.length v)
        c.messagesRef = hRead h c.messagesRef
      rw [hRead_write_ne _ _ _ _ (Nat.ne_of_lt hr).symm, hRead_append_lt _ _ _ hr]
  · intro m h r hm
    unfold MessageH.getSpiritualThemes jsFieldOrEmpty
    rw [hm]
  · intro m h r hm
    unfold MessageH.getSuggestedActions jsFieldOrEmpty
    rw [hm]
  · intro m h r hm
    unfold MessageH.getRelatedTopics jsFieldOrEmpty
    rw [hm]
  · intro m h hm
    unfold MessageH.getSpiritualThemes jsFieldOrEmpty
    rw [hm]
    rfl

/-- C5 witness: the amended statement applied at a concrete heap — the
conversation getter's copy is fresh and write-isolated, and a set
`spiritualThemes` field comes back as the stored reference itself. -/
theorem c5_witness :
    ((ConversationH.getMessages ⟨0⟩ ([[7]] : Heap Nat)).1 ≠ 0 ∧
      hRead (ConversationH.getMessages ⟨0⟩ ([[7]] : Heap Nat)).2
        (ConversationH.getMessages ⟨0⟩ ([[7]] : Heap Nat)).1 =
        hRead ([[7]] : Heap Nat) 0 ∧
      ∀ v, hRead (hWrite (ConversationH.getMessages ⟨0⟩ ([[7]] : Heap Nat)).2
        (ConversationH.getMessages ⟨0⟩ ([[7]] : Heap Nat)).1 v) 0 =
        hRead ([[7]] : Heap Nat) 0) ∧
    MessageH.getSpiritualThemes ⟨some 3, none, none⟩ [] = (3, []) :=
  ⟨c5_getters_aliasing.1 [[7]] ⟨0⟩ (by decide),
   c5_getters_aliasing.2.1 ⟨some 3, none, none⟩ [] 3 rfl⟩

/-! ## Claim C2 -/

/-- A fixed environment for concrete `SendChatMessage.execute` runs. -/
def scmEnv0 : ScmEnv := ⟨"t", 0, "t", 0, 0, "t", 0, 0⟩

/-- A repository whose chat endpoint throws a non-`Error` value. -/
def repoNonError : AiRepo :=
  ⟨fun _ => .error .nonError, fun _ => .ok (), fun _ => .ok [],
   fun _ => .error .nonError⟩

/-- Request with an empty-string `experienceLevel`: present, and not one
of beginner/intermediate/advanced. -/
def c2exReq : SendChatMessageRequest :=
  ⟨"hi", none, some ⟨none, some "", none⟩, none, none⟩

/-- C2 counterexample: an `experienceLevel` that is present but equal to
`""` is falsy, so validation skips it — `execute` proceeds to the
repository (non-empty trace) instead of returning the invalid-experience
error.  This refutes the claim for present-but-empty levels. -/
theorem c2_counterexample :
    (SendChatMessage.execute repoNonError scmEnv0 c2exReq).2 ≠ [] ∧
    (SendChatMessage.execute repoNonError scmEnv0 c2exReq).1.error ≠
      some "Invalid experience level. Must be beginner, intermediate, or advanced." := by
  decide

/-- C2 (amended): `SendChatMessage.execute` validates in order, first
failure wins, and no repository call is made on a validation failure: a
message empty after trimming → "Message cannot be empty"; a message longer
than 2000 → the canonical length error; a `userContext.experienceLevel`
that is present as a *non-empty* string and not one of
beginner/intermediate/advanced → the invalid-experience error. -/
theorem c2_validation_order (repo : AiRepo) (env : ScmEnv)
    (req : SendChatMessageRequest) :
    (jsTrim req.message = "" →
      SendChatMessage.execute repo env req = (scmFail "Message cannot be empty", [])) ∧
    (jsTrim req.message ≠ "" → req.message.length > 2000 →
      SendChatMessage.execute repo env req =
        (scmFail "Message too long. Please keep messages under 2000 characters.", [])) ∧
    (jsTrim req.message ≠ "" → req.message.length ≤ 2000 →
      ∀ uc lvl, req.userContext = some uc → uc.experienceLevel = some lvl →
      lvl ≠ "" → lvl ∉ (["beginner", "intermediate", "advanced"] : List String) →
      SendChatMessage.execute repo env req =
        (scmFail "Invalid experience level. Must be beginner, intermediate, or advanced.",
         [])) := by
  refine ⟨?_, ?_, ?_⟩
  · intro h
    rw [SendChatMessage.execute, SendChatMessage.validateRequest, if_pos h]
  · intro h1 h2
    rw [SendChatMessage.execute, SendChatMessage.validateRequest, if_neg h1, if_pos h2]
  · intro h1 h2 uc lvl huc hlvl hne hmem
    have hbad : badExperienceLevel req = true := by
      simp only [badExperienceLevel, huc, hlvl]
      simp only [Bool.and_eq_true, bne_iff_ne, ne_eq, Bool.not_eq_true']
      refine ⟨hne, ?_⟩
      simpa using hmem
    rw [SendChatMessage.execute, SendChatMessage.validateRequest, if_neg h1,
      if_neg (by omega), if_pos hbad]

/-- C2 witness: the amended statement applied at concrete requests — an
all-whitespace message and a non-empty invalid experience level, both with
no repository call. -/
theorem c2_witness :
    SendChatMessage.execute repoNonError scmEnv0 ⟨"   ", none, none, none, none⟩ =
      (scmFail "Message cannot be empty", []) ∧
    SendChatMessage.execute repoNonError scmEnv0
        ⟨"hi", none, some ⟨none, some "expert", none⟩, none, none⟩ =
      (scmFail "Invalid experience level. Must be beginner, intermediate, or advanced.",
       []) := by
  constructor
  · exact (c2_validation_order repoNonError scmEnv0 _).1 (by decide)
  · exact (c2_validation_order repoNonError scmEnv0 _).2.2 (by decide) (by decide)
      _ _ rfl rfl (by decide) (by decide)

/-! ## Claim C6 -/

/-- C6: no use case lets an exception escape `execute`.  Every path of
every modelled use case — validation failure, repository throw,
persistence throw after a successful AI call, non-`Error` throwable —
returns a discriminated result (success with payload and no error, or
failure with an error string and no payload); a non-`Error` throwable from
the chat call surfaces as the generic "An unexpected error occurred.
Please try again."; and a `saveConversation` failure after a successful
AI call surfaces as `{success: false, error}` rather than being
swallowed. -/
theorem c6_no_exception_escapes :
    (∀ (repo : AiRepo) (env : ScmEnv) (req : SendChatMessageRequest),
      ((SendChatMessage.execute repo env req).1.success = true ∧
       (SendChatMessage.execute repo env req).1.error = none ∧
       (SendChatMessage.execute repo env req).1.updatedConversation.isSome = true ∧
       (SendChatMessage.execute repo env req).1.assistantMessage.isSome = true) ∨
      ((SendChatMessage.execute repo env req).1.success = false ∧
       (∃ e, (SendChatMessage.execute repo env req).1.error = some e) ∧
       (SendChatMessage.execute repo env req).1.updatedConversation = none ∧
       (SendChatMessage.execute repo env req).1.assistantMessage = none)) ∧
    (∀ (repo : AuthRepo) (cred : LoginCredentials),
      ((LoginUser.execute repo cred).isSuccess = true ∧
       (LoginUser.execute repo cred).error = none ∧
       (LoginUser.execute repo cred).user.isSome = true ∧
       (LoginUser.execute repo cred).tokens.isSome = true) ∨
      ((LoginUser.execute repo cred).isSuccess = false ∧
       (∃ e, (LoginUser.execute repo cred).error = some e) ∧
       (LoginUser.execute repo cred).user = none ∧
       (LoginUser.execute repo cred).tokens = none)) ∧
    (∀ (repo : AuthRepo) (d : RegisterData),
      ((RegisterUser.execute repo d).isSuccess = true ∧
       (RegisterUser.execute repo d).error = none) ∨
      ((RegisterUser.execute repo d).isSuccess = false ∧
       (∃ e, (RegisterUser.execute repo d).error = some e))) ∧
    (∀ (repo : AiRepo) (req : LoadConversationsRequest),
      ((LoadConversations.execute repo req).1.success = true ∧
       (LoadConversations.execute repo req).1.error = none ∧
       (LoadConversations.execute repo req).1.conversations.isSome = true) ∨
      ((LoadConversations.execute repo req).1.success = false ∧
       (∃ e, (LoadConversations.execute repo req).1.error = some e) ∧
       (LoadConversations.execute repo req).1.conversations = none)) ∧
    (∀ (repo : AiRepo) (nowMs : Int) (req : AstrologyReadingRequest),
      ((RequestAstrologyReading.execute repo nowMs req).1.success = true ∧
       (RequestAstrologyReading.execute repo nowMs req).1.error = none ∧
       (RequestAstrologyReading.execute repo nowMs req).1.reading.isSome = true) ∨
      ((RequestAstrologyReading.execute repo nowMs req).1.success = false ∧
       (∃ e, (RequestAstrologyReading.execute repo nowMs req).1.error = some e) ∧
       (RequestAstrologyReading.execute repo nowMs req).1.reading = none)) ∧
    (∀ (repo : GuidanceRepo) (req : SpiritualGuidanceRequest),
      ((RequestSpiritualGuidance.execute repo req).success = true ∧
       (RequestSpiritualGuidance.execute repo req).error = none ∧
       (RequestSpiritualGuidance.execute repo req).guidance.isSome = true) ∨
      ((RequestSpiritualGuidance.execute repo req).success = false ∧
       (∃ e, (RequestSpiritualGuidance.execute repo req).error = some e) ∧
       (RequestSpiritualGuidance.execute repo req).guidance = none)) ∧
    (∀ (repo : AiRepo) (env : ScmEnv) (req : SendChatMessageRequest) (q : ChatRequest),
      RepoCall.sendChat q ∈ (SendChatMessage.execute repo env req).2 →
      repo.sendChatMessage q = .error .nonError →
      (SendChatMessage.execute repo env req).1.error =
        some "An unexpected error occurred. Please try again.") ∧
    (∀ (repo : AiRepo) (env : ScmEnv) (req : SendChatMessageRequest)
        (c : Conversation) (e : JsThrown),
      RepoCall.saveConv c ∈ (SendChatMessage.execute repo env req).2 →
      repo.saveConversation c = .error e →
      (SendChatMessage.execute repo env req).1 =
        scmFail (SendChatMessage.handleError e)) := by
  refine ⟨?_, ?_, ?_, ?_, ?_, ?_, ?_, ?_⟩
  · intro repo env req
    unfold SendChatMessage.execute
    simp only []
    repeat' split
    all_goals simp [scmFail]
  · intro repo cred
    unfold LoginUser.execute loginCatch authFail
    repeat' split
    all_goals simp [authFail]
  · intro repo d
    unfold RegisterUser.execute registerCatch authFail
    repeat' split
    all_goals simp [authFail]
  · intro repo req
    unfold LoadConversations.execute
    repeat' split
    all_goals simp
  · intro repo nowMs req
    unfold RequestAstrologyReading.execute
    simp only []
    repeat' split
    all_goals simp
  · intro repo req
    unfold RequestSpiritualGuidance.execute
    repeat' split
    all_goals simp
  · intro repo env req q
    unfold SendChatMessage.execute
    simp only []
    repeat' split
    all_goals intro hm he
    all_goals simp only [List.mem_singleton, List.mem_cons, List.not_mem_nil,
      or_false, false_or, reduceCtorEq, RepoCall.sendChat.injEq] at hm
    all_goals try subst hm
    all_goals simp_all [scmFail, SendChatMessage.handleError]
    all_goals subst_vars
    all_goals rfl
  · intro repo env req c e
    unfold SendChatMessage.execute
    simp only []
    repeat' split
    all_goals intro hm he
    all_goals simp only [List.mem_singleton, List.mem_cons, List.not_mem_nil,
      or_false, false_or, reduceCtorEq, RepoCall.saveConv.injEq] at hm
    all_goals try subst hm
    all_goals simp_all [scmFail]

/-- Repository whose chat call succeeds (echoing the conversation id, like
the test mock) and whose `saveConversation` throws. -/
def repoSaveFail : AiRepo :=
  ⟨fun q => .ok ⟨"Hello!", q.conversationId.getD "", [], none, none, 0⟩,
   fun _ => .error (.jsError "Storage failed"), fun _ => .ok [],
   fun _ => .error .nonError⟩

/-- The conversation `SendChatMessage.execute repoSaveFail scmEnv0` tries
to persist for the request "hi". -/
def c6exSaveConv : Conversation :=
  ⟨⟨"conv-t",
    [⟨⟨"user-t", "user", "hi", some 0, none, none, none, none⟩⟩,
     ⟨⟨"assistant-t", "assistant", "Hello!", some 0, some "conv-t",
       some [], none, none⟩⟩],
    some 0, some 0, none, none⟩⟩

/-- C6 witness: the theorem applied at concrete runs — a non-`Error`
throw from the chat endpoint yields the generic message, and a
`saveConversation` failure after a successful AI call surfaces as a
failure result carrying the mapped storage error. -/
theorem c6_witness :
    (SendChatMessage.execute repoNonError scmEnv0
        ⟨"hi", none, none, none, none⟩).1.error =
      some "An unexpected error occurred. Please try again." ∧
    (SendChatMessage.execute repoSaveFail scmEnv0
        ⟨"hi", none, none, none, none⟩).1 =
      scmFail (SendChatMessage.handleError (.jsError "Storage failed")) := by
  constructor
  · exact c6_no_exception_escapes.2.2.2.2.2.2.1 repoNonError scmEnv0
      ⟨"hi", none, none, none, none⟩
      ⟨"hi", some "conv-t", some ⟨none, none, none⟩⟩ (by decide) rfl
  · exact c6_no_exception_escapes.2.2.2.2.2.2.2 repoSaveFail scmEnv0
      ⟨"hi", none, none, none, none⟩ c6exSaveConv (.jsError "Storage failed")
      (by decide) rfl

/-! ## Claim C7 -/

theorem astro_execute_of_validation_fail (repo : AiRepo) (nowMs : Int)
    (req : AstrologyReadingRequest) (e : String)
    (h : RequestAstrologyReading.validateRequest nowMs req = some e) :
    RequestAstrologyReading.execute repo nowMs req = (⟨false, none, some e⟩, []) := by
  unfold RequestAstrologyReading.execute
  rw [h]

/-- A subject birth info passing all birth-field checks for the C7
runs. -/
def c7exBirth : BirthInfo := ⟨"1990-01-15", "12:30", "London", none⟩

/-- The instant 2020-01-01T00:00:00Z, used as "now" in the C7 runs. -/
def c7nowMs : Int := 1577836800000

/-- A benign repository for the C7 runs. -/
def astroRepo0 : AiRepo :=
  ⟨fun _ => .error .nonError, fun _ => .ok (), fun _ => .ok [],
   fun _ => .ok ⟨"reading"⟩⟩

/-- C7 counterexample: the empty string is outside the allowed set, yet
`execute` fails with "Reading type is required" — not the
invalid-reading-type error the claim promises for every reading type
outside the allowed set. -/
theorem c7_counterexample :
    (RequestAstrologyReading.execute astroRepo0 c7nowMs
        ⟨c7exBirth, "", none⟩).1 =
      ⟨false, none, some "Reading type is required"⟩ ∧
    "Reading type is required" ≠ invalidReadingTypeMsg := by
  constructor
  · decide
  · decide

theorem validateRequest_partner_required (nowMs : Int) (req : AstrologyReadingRequest)
    (hb : validateBirthInfo nowMs req.birthInfo.dateOfBirth req.birthInfo.timeOfBirth
      req.birthInfo.placeOfBirth req.birthInfo.timezone "Your" = none)
    (hlen : req.readingType.length ≤ 100)
    (hpt : jsTrim req.readingType ∈ partnerReadingTypes)
    (hp : req.partnerBirthInfo = none) :
    RequestAstrologyReading.validateRequest nowMs req =
      some ("Partner birth information is required for " ++ req.readingType ++
        " reading") := by
  have htne : jsTrim req.readingType ≠ "" := by
    intro h0
    rw [h0] at hpt
    exact absurd hpt (by decide)
  have hallow : jsTrim req.readingType ∈ allowedReadingTypes :=
    (by decide : ∀ x ∈ partnerReadingTypes, x ∈ allowedReadingTypes) _ hpt
  have hcontA : allowedReadingTypes.contains (jsTrim req.readingType) = true := by
    simpa using hallow
  have hcontP : partnerReadingTypes.contains (jsTrim req.readingType) = true := by
    simpa using hpt
  unfold RequestAstrologyReading.validateRequest
  rw [hb]
  simp only [hp, hcontA, hcontP, Bool.not_true, if_neg htne,
    if_neg (by omega : ¬req.readingType.length > 100)]
  simp

theorem validateRequest_partner_not_needed (nowMs : Int) (req : AstrologyReadingRequest)
    (p : PartnerBirthInfo)
    (hb : validateBirthInfo nowMs req.birthInfo.dateOfBirth req.birthInfo.timeOfBirth
      req.birthInfo.placeOfBirth req.birthInfo.timezone "Your" = none)
    (hlen : req.readingType.length ≤ 100)
    (hallow : jsTrim req.readingType ∈ allowedReadingTypes)
    (hpt : jsTrim req.readingType ∉ partnerReadingTypes)
    (hp : req.partnerBirthInfo = some p) :
    RequestAstrologyReading.validateRequest nowMs req =
      some ("Partner birth info is not needed for " ++ req.readingType ++
        " reading") := by
  have htne : jsTrim req.readingType ≠ "" := by
    intro h0
    rw [h0] at hallow
    exact absurd hallow (by decide)
  have hcontA : allowedReadingTypes.contains (jsTrim req.readingType) = true := by
    simpa using hallow
  have hcontP : partnerReadingTypes.contains (jsTrim req.readingType) = false := by
    simpa using hpt
  unfold RequestAstrologyReading.validateRequest
  rw [hb]
  simp only [hp, hcontA, hcontP, Bool.not_true, Bool.not_false, if_neg htne,
    if_neg (by omega : ¬req.readingType.length > 100)]
  simp

theorem validateRequest_invalid_type (nowMs : Int) (req : AstrologyReadingRequest)
    (hb : validateBirthInfo nowMs req.birthInfo.dateOfBirth req.birthInfo.timeOfBirth
      req.birthInfo.placeOfBirth req.birthInfo.timezone "Your" = none)
    (htne : jsTrim req.readingType ≠ "")
    (hlen : req.readingType.length ≤ 100)
    (hallow : jsTrim req.readingType ∉ allowedReadingTypes) :
    RequestAstrologyReading.validateRequest nowMs req = some invalidReadingTypeMsg := by
  have hcontA : allowedReadingTypes.contains (jsTrim req.readingType) = false := by
    simpa using hallow
  unfold RequestAstrologyReading.validateRequest
  rw [hb]
  simp only [hcontA, Bool.not_false, if_neg htne,
    if_neg (by omega : ¬req.readingType.length > 100)]
  simp

/-- C7 (amended): for a request whose subject birth info validates and
whose `readingType` string is at most 100 characters long: a reading type
trimming to one of compatibility/composite_chart/synastry with no partner
info fails with the partner-required error; a reading type trimming to any
other member of the allowed set with partner info present fails with the
partner-not-needed error; and a reading type that trims to a *non-empty*
string outside the allowed set fails with the invalid-reading-type
error — in each case with no repository call. -/
theorem c7_reading_type_rules (repo : AiRepo) (nowMs : Int)
    (req : AstrologyReadingRequest)
    (hb : validateBirthInfo nowMs req.birthInfo.dateOfBirth req.birthInfo.timeOfBirth
      req.birthInfo.placeOfBirth req.birthInfo.timezone "Your" = none)
    (hlen : req.readingType.length ≤ 100) :
    (jsTrim req.readingType ∈ partnerReadingTypes → req.partnerBirthInfo = none →
      RequestAstrologyReading.execute repo nowMs req =
        (⟨false, none, some ("Partner birth information is required for " ++
          req.readingType ++ " reading")⟩, [])) ∧
    (jsTrim req.readingType ∈ allowedReadingTypes →
      jsTrim req.readingType ∉ partnerReadingTypes →
      ∀ p, req.partnerBirthInfo = some p →
      RequestAstrologyReading.execute repo nowMs req =
        (⟨false, none, some ("Partner birth info is not needed for " ++
          req.readingType ++ " reading")⟩, [])) ∧
    (jsTrim req.readingType ≠ "" → jsTrim req.readingType ∉ allowedReadingTypes →
      RequestAstrologyReading.execute repo nowMs req =
        (⟨false, none, some invalidReadingTypeMsg⟩, [])) := by
  refine ⟨?_, ?_, ?_⟩
  · intro hpt hp
    exact astro_execute_of_validation_fail repo nowMs req _
      (validateRequest_partner_required nowMs req hb hlen hpt hp)
  · intro hallow hpt p hp
    exact astro_execute_of_validation_fail repo nowMs req _
      (validateRequest_partner_not_needed nowMs req p hb hlen hallow hpt hp)
  · intro htne hallow
    exact astro_execute_of_validation_fail repo nowMs req _
      (validateRequest_invalid_type nowMs req hb htne hlen hallow)

/-- C7 witness: the amended statement applied at concrete requests —
`compatibility` with no partner, `natal_chart` with a partner, and the
out-of-set type `tarot`. -/
theorem c7_witness :
    RequestAstrologyReading.execute astroRepo0 c7nowMs
        ⟨c7exBirth, "compatibility", none⟩ =
      (⟨false, none,
        some "Partner birth information is required for compatibility reading"⟩, []) ∧
    RequestAstrologyReading.execute astroRepo0 c7nowMs
        ⟨c7exBirth, "natal_chart", some ⟨"1991-02-20", "01:00", "Paris"⟩⟩ =
      (⟨false, none,
        some "Partner birth info is not needed for natal_chart reading"⟩, []) ∧
    RequestAstrologyReading.execute astroRepo0 c7nowMs ⟨c7exBirth, "tarot", none⟩ =
      (⟨false, none, some invalidReadingTypeMsg⟩, []) := by
  refine ⟨?_, ?_, ?_⟩
  · exact (c7_reading_type_rules astroRepo0 c7nowMs _ (by decide) (by decide)).1
      (by decide) rfl
  · exact (c7_reading_type_rules astroRepo0 c7nowMs _ (by decide) (by decide)).2.1
      (by decide) (by decide) _ rfl
  · exact (c7_reading_type_rules astroRepo0 c7nowMs _ (by decide) (by decide)).2.2
      (by decide) (by decide)

/-! ## Claim C8 -/

/-- The shared login/registration input validation (email format and
password policy) passing. -/
def AuthInputOk (email password : String) : Prop :=
  emailRegexOk email = true ∧ ¬(password.length < 8) ∧
  hasUppercase password = true ∧ hasSpecialChar password = true

instance (email password : String) : Decidable (AuthInputOk email password) := by
  unfold AuthInputOk; infer_instance

theorem login_execute_of_valid (repo : AuthRepo) (cred : LoginCredentials)
    (hok : AuthInputOk cred.email cred.password) :
    LoginUser.execute repo cred =
      (match repo.login cred with
       | .error e => loginCatch e
       | .ok result =>
         match repo.storeTokens result.tokens with
         | .error e => loginCatch e
         | .ok _ => ⟨true, some result.user, some result.tokens, none⟩) := by
  obtain ⟨h1, h2, h3, h4⟩ := hok
  unfold LoginUser.execute
  rw [if_neg (by simp [h1]), if_neg h2, if_neg (by simp [h3]), if_neg (by simp [h4])]

theorem register_execute_of_valid (repo : AuthRepo) (d : RegisterData)
    (hok : AuthInputOk d.email d.password)
    (hf : jsTrim d.firstName ≠ "") (hl : jsTrim d.lastName ≠ "") :
    RegisterUser.execute repo d =
      (match repo.register d with
       | .error e => registerCatch e
       | .ok result =>
         match repo.storeTokens result.tokens with
         | .error e => registerCatch e
         | .ok _ => ⟨true, some result.user, some result.tokens, none⟩) := by
  obtain ⟨h1, h2, h3, h4⟩ := hok
  unfold RegisterUser.execute
  rw [if_neg (by simp [h1]), if_neg h2, if_neg (by simp [h3]), if_neg (by simp [h4]),
    if_neg hf, if_neg hl]

theorem loginCatch_other (e : JsThrown) (h : e ≠ .jsError "Invalid credentials") :
    loginCatch e = authFail "Login failed. Please try again." := by
  cases e with
  | jsError m =>
    have hm : ¬(m = "Invalid credentials") := fun h0 => h (by rw [h0])
    simp only [loginCatch]
    rw [if_neg hm]
  | nonError => rfl

theorem registerCatch_raw (m : String) (h : m ≠ "User already exists") :
    registerCatch (.jsError m) = authFail m := by
  simp only [registerCatch]
  rw [if_neg h]

/-- C8: when the repository throws, `LoginUser.execute` maps a thrown
`Error('Invalid credentials')` to that literal error and every other
failure — including a `storeTokens` failure — to the generic
"Login failed. Please try again." (never the raw backend message), while
`RegisterUser.execute` maps `Error('User already exists')` literally and
otherwise surfaces the raw message of the thrown `Error`. -/
theorem c8_auth_error_mapping :
    (∀ (repo : AuthRepo) (cred : LoginCredentials),
      AuthInputOk cred.email cred.password →
      (repo.login cred = .error (.jsError "Invalid credentials") →
        LoginUser.execute repo cred = authFail "Invalid credentials") ∧
      (∀ e, repo.login cred = .error e → e ≠ .jsError "Invalid credentials" →
        LoginUser.execute repo cred = authFail "Login failed. Please try again.") ∧
      (∀ s e, repo.login cred = .ok s → repo.storeTokens s.tokens = .error e →
        e ≠ .jsError "Invalid credentials" →
        LoginUser.execute repo cred = authFail "Login failed. Please try again.")) ∧
    (∀ (repo : AuthRepo) (d : RegisterData),
      AuthInputOk d.email d.password →
      jsTrim d.firstName ≠ "" → jsTrim d.lastName ≠ "" →
      (repo.register d = .error (.jsError "User already exists") →
        RegisterUser.execute repo d = authFail "User already exists") ∧
      (∀ m, repo.register d = .error (.jsError m) → m ≠ "User already exists" →
        RegisterUser.execute repo d = authFail m)) := by
  constructor
  · intro repo cred hok
    refine ⟨?_, ?_, ?_⟩
    · intro hlog
      rw [login_execute_of_valid repo cred hok, hlog]
      show loginCatch (.jsError "Invalid credentials") = authFail "Invalid credentials"
      rfl
    · intro e hlog hne
      rw [login_execute_of_valid repo cred hok, hlog]
      show loginCatch e = authFail "Login failed. Please try again."
      exact loginCatch_other e hne
    · intro s e hlog hstore hne
      rw [login_execute_of_valid repo cred hok, hlog]
      show (match repo.storeTokens s.tokens with
        | .error e => loginCatch e
        | .ok _ => (⟨true, some s.user, some s.tokens, none⟩ : LoginResult)) =
        authFail "Login failed. Please try again."
      rw [hstore]
      show loginCatch e = authFail "Login failed. Please try again."
      exact loginCatch_other e hne
  · intro repo d hok hf hl
    constructor
    · intro hreg
      rw [register_execute_of_valid repo d hok hf hl, hreg]
      show registerCatch (.jsError "User already exists") = authFail "User already exists"
      rfl
    · intro m hreg hne
      rw [register_execute_of_valid repo d hok hf hl, hreg]
      show registerCatch (.jsError m) = authFail m
      exact registerCatch_raw m hne

/-- Repository throwing `Error('Invalid credentials')` on login and
`Error('User already exists')` on register. -/
def authRepoIC : AuthRepo :=
  ⟨fun _ => .error (.jsError "Invalid credentials"),
   fun _ => .error (.jsError "User already exists"), fun _ => .ok ()⟩

/-- Repository throwing a raw backend error on login and register. -/
def authRepoRaw : AuthRepo :=
  ⟨fun _ => .error (.jsError "ECONNREFUSED 10.0.0.1"),
   fun _ => .error (.jsError "ECONNREFUSED 10.0.0.1"), fun _ => .ok ()⟩

/-- C8 witness: the mapping applied at concrete repositories — the
literal pass-throughs, the suppressed raw message on login, and the
surfaced raw message on registration. -/
theorem c8_witness :
    LoginUser.execute authRepoIC ⟨"a@b.cd", "Password1!"⟩ =
      authFail "Invalid credentials" ∧
    LoginUser.execute authRepoRaw ⟨"a@b.cd", "Password1!"⟩ =
      authFail "Login failed. Please try again." ∧
    RegisterUser.execute authRepoIC ⟨"a@b.cd", "Password1!", "Ada", "Lovelace"⟩ =
      authFail "User already exists" ∧
    RegisterUser.execute authRepoRaw ⟨"a@b.cd", "Password1!", "Ada", "Lovelace"⟩ =
      authFail "ECONNREFUSED 10.0.0.1" := by
  refine ⟨?_, ?_, ?_, ?_⟩
  · exact (c8_auth_error_mapping.1 authRepoIC _ (by decide)).1 rfl
  · exact (c8_auth_error_mapping.1 authRepoRaw _ (by decide)).2.1 _ rfl (by decide)
  · exact (c8_auth_error_mapping.2 authRepoIC _ (by decide) (by decide) (by decide)).1 rfl
  · exact (c8_auth_error_mapping.2 authRepoRaw _ (by decide) (by decide) (by decide)).2
      _ rfl (by decide)

/-! ## Claim C9 -/

/-- C9: a provided `limit` that is not a positive integer fails with
"Limit must be a positive integer"; an integral limit above 100 fails with
"Limit cannot exceed 100 conversations" — both with no repository call;
any request passing validation (valid or omitted limit) delegates to the
repository, and a successful result always carries the repository's array
(possibly empty), never an absent value. -/
theorem c9_load_conversations (repo : AiRepo) :
    (∀ q : ℚ, ¬(q.den = 1) ∨ q < 1 →
      LoadConversations.execute repo ⟨some q⟩ =
        (⟨false, none, some "Limit must be a positive integer"⟩, [])) ∧
    (∀ q : ℚ, q.den = 1 → 1 ≤ q → 100 < q →
      LoadConversations.execute repo ⟨some q⟩ =
        (⟨false, none, some "Limit cannot exceed 100 conversations"⟩, [])) ∧
    (∀ (req : LoadConversationsRequest) (l : List Conversation),
      LoadConversations.validateRequest req = none →
      repo.loadConversations req.limit = .ok l →
      LoadConversations.execute repo req =
        (⟨true, some l, none⟩, [.loadConvs req.limit])) := by
  refine ⟨?_, ?_, ?_⟩
  · intro q h
    rw [LoadConversations.execute, LoadConversations.validateRequest]
    show (match (if ¬(q.den = 1) ∨ q < 1 then some "Limit must be a positive integer"
      else if q > 100 then some "Limit cannot exceed 100 conversations" else none) with
      | some e => ((⟨false, none, some e⟩ : LoadConversationsResult), ([] : List RepoCall))
      | none => _) = _
    rw [if_pos h]
  · intro q hden h1 h100
    rw [LoadConversations.execute, LoadConversations.validateRequest]
    show (match (if ¬(q.den = 1) ∨ q < 1 then some "Limit must be a positive integer"
      else if q > 100 then some "Limit cannot exceed 100 conversations" else none) with
      | some e => ((⟨false, none, some e⟩ : LoadConversationsResult), ([] : List RepoCall))
      | none => _) = _
    rw [if_neg (by push_neg; exact ⟨hden, h1⟩), if_pos h100]
  · intro req l hv hload
    rw [LoadConversations.execute, hv, hload]

/-- C9 witness: limit 0 and limit 101 fail with the two messages, and
limit 10 against an empty store succeeds with the empty array. -/
theorem c9_witness :
    LoadConversations.execute repoNonError ⟨some 0⟩ =
      (⟨false, none, some "Limit must be a positive integer"⟩, []) ∧
    LoadConversations.execute repoNonError ⟨some 101⟩ =
      (⟨false, none, some "Limit cannot exceed 100 conversations"⟩, []) ∧
    LoadConversations.execute repoNonError ⟨some 10⟩ =
      (⟨true, some [], none⟩, [.loadConvs (some 10)]) := by
  refine ⟨?_, ?_, ?_⟩
  · exact (c9_load_conversations repoNonError).1 0 (by norm_num)
  · exact (c9_load_conversations repoNonError).2.1 101 (by norm_num) (by norm_num)
      (by norm_num)
  · exact (c9_load_conversations repoNonError).2.2 ⟨some 10⟩ [] (by decide) rfl

/-! ## Claim C10 -/

/-- C10: on every successful run of `SendChatMessage.execute`, the
`ChatRequest` sent to the repository carries the original, untrimmed
request message, while the user message stored in the resulting
conversation carries the trimmed content (`createUserMessage` trims) —
so the persisted content and the wire message can differ exactly by the
surrounding whitespace. -/
theorem c10_wire_untrimmed_stored_trimmed (repo : AiRepo) (env : ScmEnv)
    (req : SendChatMessageRequest)
    (hs : (SendChatMessage.execute repo env req).1.success = true) :
    ∃ q fc um am,
      (SendChatMessage.execute repo env req).2 = [.sendChat q, .saveConv fc] ∧
      q.message = req.message ∧
      (SendChatMessage.execute repo env req).1.updatedConversation = some fc ∧
      fc.props.messages =
        (match req.conversation with
         | some c => c.props.messages
         | none => []) ++ [um, am] ∧
      um.props.content = jsTrim req.message ∧
      um.props.role = "user" ∧
      (SendChatMessage.execute repo env req).1.assistantMessage = some am := by
  unfold SendChatMessage.execute at hs ⊢
  simp only [] at hs ⊢
  cases hval : SendChatMessage.validateRequest req with
  | some e => simp only [hval] at hs; simp [scmFail] at hs
  | none =>
  simp only [hval] at hs ⊢
  cases hum : createUserMessage env.userIdTok env.userTs req.message
      (req.conversation.map Conversation.id) with
  | error e => simp only [hum] at hs; simp [scmFail] at hs
  | ok um =>
  simp only [hum] at hs ⊢
  cases hrc : req.conversation with
  | some c0 =>
    simp only [hrc] at hs ⊢
    cases hcc : c0.addMessage um env.userAddTs with
    | error e => simp only [hcc] at hs; simp [scmFail] at hs
    | ok cc =>
    simp only [hcc] at hs ⊢
    cases hsend : repo.sendChatMessage
        ⟨req.message, some cc.id, some ⟨req.userContext, req.location, req.timeOfDay⟩⟩ with
    | error e => simp only [hsend] at hs; simp [scmFail] at hs
    | ok resp =>
    simp only [hsend] at hs ⊢
    cases hasst : createAssistantMessage env.asstIdTok env.asstTs resp.message
        (some resp.conversationId) (some resp.spiritualThemes) resp.suggestedActions
        resp.relatedTopics with
    | error e => simp only [hasst] at hs; simp [scmFail] at hs
    | ok am =>
    simp only [hasst] at hs ⊢
    cases hadd : cc.addMessage am env.asstAddTs with
    | error e => simp only [hadd] at hs; simp [scmFail] at hs
    | ok fc =>
    simp only [hadd] at hs ⊢
    cases hsave : repo.saveConversation fc with
    | error e => simp only [hsave] at hs; simp [scmFail] at hs
    | ok u =>
    simp only [hsave] at hs ⊢
    refine ⟨_, fc, um, am, rfl, rfl, rfl, ?_, (createUserMessage_ok_props hum).1,
      (createUserMessage_ok_props hum).2, rfl⟩
    rw [addMessage_ok_messages hadd, addMessage_ok_messages hcc]
    simp
  | none =>
    simp only [hrc] at hs ⊢
    cases hcc : createWithFirstMessage env.convIdTok env.convTs env.userAddTs um none with
    | error e => simp only [hcc] at hs; simp [scmFail] at hs
    | ok cc =>
    simp only [hcc] at hs ⊢
    cases hsend : repo.sendChatMessage
        ⟨req.message, some cc.id, some ⟨req.userContext, req.location, req.timeOfDay⟩⟩ with
    | error e => simp only [hsend] at hs; simp [scmFail] at hs
    | ok resp =>
    simp only [hsend] at hs ⊢
    cases hasst : createAssistantMessage env.asstIdTok env.asstTs resp.message
        (some resp.conversationId) (some resp.spiritualThemes) resp.suggestedActions
        resp.relatedTopics with
    | error e => simp only [hasst] at hs; simp [scmFail] at hs
    | ok am =>
    simp only [hasst] at hs ⊢
    cases hadd : cc.addMessage am env.asstAddTs with
    | error e => simp only [hadd] at hs; simp [scmFail] at hs
    | ok fc =>
    simp only [hadd] at hs ⊢
    cases hsave : repo.saveConversation fc with
    | error e => simp only [hsave] at hs; simp [scmFail] at hs
    | ok u =>
    simp only [hsave] at hs ⊢
    refine ⟨_, fc, um, am, rfl, rfl, rfl, ?_, (createUserMessage_ok_props hum).1,
      (createUserMessage_ok_props hum).2, rfl⟩
    rw [addMessage_ok_messages hadd, createWithFirstMessage_ok_messages hcc]
    simp

/-- Repository whose chat call succeeds (echoing the conversation id) and
whose persistence succeeds. -/
def repoSaveOk : AiRepo :=
  ⟨fun q => .ok ⟨"Hello!", q.conversationId.getD "", [], none, none, 0⟩,
   fun _ => .ok (), fun _ => .ok [], fun _ => .error .nonError⟩

/-- C10 witness: a successful concrete run on the message
`"  How can I meditate?  "` — the wire request keeps the raw string, the
stored user message holds the trimmed one. -/
theorem c10_witness :
    ∃ q fc um am,
      (SendChatMessage.execute repoSaveOk scmEnv0
        ⟨"  How can I meditate?  ", none, none, none, none⟩).2 =
        [.sendChat q, .saveConv fc] ∧
      q.message = "  How can I meditate?  " ∧
      (SendChatMessage.execute repoSaveOk scmEnv0
        ⟨"  How can I meditate?  ", none, none, none, none⟩).1.updatedConversation =
        some fc ∧
      fc.props.messages = [um, am] ∧
      um.props.content = jsTrim "  How can I meditate?  " ∧
      um.props.role = "user" ∧
      (SendChatMessage.execute repoSaveOk scmEnv0
        ⟨"  How can I meditate?  ", none, none, none, none⟩).1.assistantMessage =
        some am := by
  obtain ⟨q, fc, um, am, h1, h2, h3, h4, h5, h6, h7⟩ :=
    c10_wire_untrimmed_stored_trimmed repoSaveOk scmEnv0
      ⟨"  How can I meditate?  ", none, none, none, none⟩ (by decide)
  exact ⟨q, fc, um, am, h1, h2, h3, by simpa using h4, h5, h6, h7⟩
